import Mathlib

/-!
# StudyMap gap-algorithm: shallow embedding and verification

This file embeds the core of `src/gap-algorithm` (`GapAnalyzer.ts`,
`PathFinder.ts`, `types.ts`) of the StudyMap repository into Lean 4 and
settles the frozen claims about it.

Modelling conventions:

* JavaScript numbers are modelled as `ℚ`.  All arithmetic the claims touch
  is on small integer-valued data, where IEEE doubles and rationals agree;
  divergences (`NaN`, `x/0`) are noted at the definitions they touch.
* A JavaScript `Map` is modelled as an association `List` in insertion
  order (`JsMap`): `set` replaces in place or appends, iteration follows
  the list, `delete` removes the key.  Keys are unique in every map the
  code builds (they are all built through `set`).
* `Array.prototype.sort` is stable (ECMA-262); it is modelled by a stable
  insertion sort driven by the same numeric comparator.
* Wall-clock reads (`performance.now() - startTime < timeLimit`) are
  modelled by an abstract boolean oracle indexed by the loop iteration;
  theorems quantify over every oracle, covering every real-time behaviour
  (including a 1 ms limit that expires immediately).
* `while` loops are embedded as fuel-indexed recursion with an explicit
  "out of fuel" result; termination claims become "a fixed fuel bound is
  never exhausted", and genuine non-termination becomes "every fuel is
  exhausted".
* Reachable JavaScript exceptions (a `TypeError` on a property access of
  `undefined`) are modelled by an explicit `thrown`-style result at the
  exact expression that throws.
-/

set_option maxHeartbeats 4000000
set_option maxRecDepth 4000

/-- `Math.max` on JS numbers. -/
def jsMax (a b : ℚ) : ℚ := if a ≤ b then b else a

/-- `Math.min` on JS numbers. -/
def jsMin (a b : ℚ) : ℚ := if a ≤ b then a else b

/-- `Math.abs` on JS numbers. -/
def jsAbs (a : ℚ) : ℚ := if a < 0 then -a else a

theorem jsMax_eq_max (a b : ℚ) : jsMax a b = max a b := by
  simp only [jsMax, max_def]

theorem jsMin_eq_min (a b : ℚ) : jsMin a b = min a b := by
  simp only [jsMin, min_def]

theorem jsAbs_eq_abs (a : ℚ) : jsAbs a = |a| := by
  rcases lt_or_le a 0 with h | h
  · rw [jsAbs, if_pos h, abs_of_neg h]
  · rw [jsAbs, if_neg (not_lt.mpr h), abs_of_nonneg h]

/-- The three difficulty tiers `'L1' | 'L2' | 'L3'` of `types.ts`. -/
inductive Layer where
  | L1 | L2 | L3
deriving DecidableEq, Repr

/-- The fields of `LearningNode` (`types.ts`) that the algorithms read.
`difficulty` is a JS number; `prerequisites`/`dependencies` are id lists;
the metadata fields (`term`, `name`, `title`, …) are never read by the
algorithms and are omitted. -/
structure LearningNode where
  id : String
  difficulty : ℚ
  prerequisites : List String
  dependencies : List String
  layer : Layer
  timeEstimate : Option ℚ := none
deriving DecidableEq, Repr

/-- A JS `Map<string, α>` as an insertion-ordered association list. -/
abbrev JsMap (α : Type) := List (String × α)

/-- `Map.prototype.get`: the value stored at `k`. -/
def jsGet {α : Type} (m : JsMap α) (k : String) : Option α :=
  match m with
  | [] => none
  | (k', v) :: rest => if k' = k then some v else jsGet rest k

/-- `Map.prototype.set`: replace the value in place if `k` is present,
otherwise append the new entry (JS Maps keep the original key position). -/
def jsSet {α : Type} (m : JsMap α) (k : String) (v : α) : JsMap α :=
  match m with
  | [] => [(k, v)]
  | (k', v') :: rest => if k' = k then (k, v) :: rest else (k', v') :: jsSet rest k v

/-- `Map.prototype.has`. -/
def jsHas {α : Type} (m : JsMap α) (k : String) : Bool :=
  (jsGet m k).isSome

/-- `Map.prototype.delete` (keys are unique in every map the code builds,
so removing every occurrence of the key is exact). -/
def jsDelete {α : Type} (m : JsMap α) (k : String) : JsMap α :=
  match m with
  | [] => []
  | (k', v) :: rest => if k' = k then jsDelete rest k else (k', v) :: jsDelete rest k

/-- `new Map(entries)`: re-inserts every entry through `set`. -/
def jsCopy {α : Type} (m : JsMap α) : JsMap α :=
  m.foldl (fun acc e => jsSet acc e.1 e.2) []

/-- `new Map(nodes.map(node => [node.id, node]))` — the node index that
both the `GapAnalyzer` and the `PathFinder` constructors build. -/
def nodesMap (nodes : List LearningNode) : JsMap LearningNode :=
  (nodes.map (fun n => (n.id, n))).foldl (fun acc e => jsSet acc e.1 e.2) []

/-- `Array.from(map.values())`. -/
def jsValues {α : Type} (m : JsMap α) : List α :=
  m.map Prod.snd

/-- `Array.prototype.filter` with a decidable element predicate. -/
def jsFilter {α : Type} (p : α → Prop) [DecidablePred p] : List α → List α
  | [] => []
  | x :: xs => if p x then x :: jsFilter p xs else jsFilter p xs

/-- `Array.prototype.includes` on id lists. -/
def jsIncludes (l : List String) (s : String) : Bool :=
  match l with
  | [] => false
  | x :: xs => if x = s then true else jsIncludes xs s

/-- Stable insertion of `x` into `l` under the JS comparator convention:
`x` goes before the first `y` with `cmp x y ≤ 0`. -/
def jsInsert {α : Type} (cmp : α → α → ℚ) (x : α) : List α → List α
  | [] => [x]
  | y :: ys => if cmp x y ≤ 0 then x :: y :: ys else y :: jsInsert cmp x ys

/-- `Array.prototype.sort(cmp)`: a stable sort by a numeric comparator. -/
def jsSortBy {α : Type} (cmp : α → α → ℚ) : List α → List α
  | [] => []
  | x :: xs => jsInsert cmp x (jsSortBy cmp xs)

/-- Mastery lookup `userProgress.get(id) || 0` (absent entries count 0;
a stored 0 is falsy and also yields 0, so `getD 0` is exact). -/
def masteryOf (userProgress : JsMap ℚ) (id : String) : ℚ :=
  (jsGet userProgress id).getD 0

example : jsSortBy (fun a b => a - b) [(3 : ℚ), 1, 2, 1] = [1, 1, 2, 3] := by
  norm_num [jsSortBy, jsInsert]

example : jsSet [("a", (1 : ℚ)), ("b", 2)] "a" 5 = [("a", 5), ("b", 2)] := by
  simp [jsSet]

example : jsGet (jsDelete [("a", (1 : ℚ)), ("b", 2)] "a") "a" = none := by
  simp [jsGet, jsDelete]

/-! ## GapAnalyzer.ts -/

/- The `HEURISTIC_WEIGHTS` constant table of `GapAnalyzer.ts`. -/
namespace HEURISTIC_WEIGHTS

def DIFFICULTY_GAP : ℚ := 4/10

def PREREQUISITE_GAP : ℚ := 4/10

def LAYER_GAP : ℚ := 2/10

def MASTERY_THRESHOLD : ℚ := 8/10

end HEURISTIC_WEIGHTS

/-- The `LAYER_WEIGHTS` lookup table (`LAYER_WEIGHTS[from][to]`). -/
def layerWeight : Layer → Layer → ℚ
  | .L1, .L1 => 0 | .L1, .L2 => 30 | .L1, .L3 => 60
  | .L2, .L1 => 30 | .L2, .L2 => 0 | .L2, .L3 => 30
  | .L3, .L1 => 60 | .L3, .L2 => 30 | .L3, .L3 => 0

/-- `GapLevel` of `GapAnalyzer.ts`. -/
inductive GapLevel where
  | low | medium | high
deriving DecidableEq, Repr

/-- `GapPriority` (`'immediate' | 'short-term' | 'long-term'`). -/
inductive GapPriority where
  | immediate | shortTerm | longTerm
deriving DecidableEq, Repr

/-- The `GapAnalyzer` class state: the node index and the copied progress
map built by the constructor. -/
structure GapAnalyzer where
  nodes : JsMap LearningNode
  userProgress : JsMap ℚ

/-- `new GapAnalyzer(nodes, userProgress)`: builds the id→node index and
copies the caller's progress map (`new Map(userProgress)`). -/
def GapAnalyzer.create (nodes : List LearningNode) (userProgress : JsMap ℚ) : GapAnalyzer :=
  { nodes := nodesMap nodes, userProgress := jsCopy userProgress }

/-- The result object `analyzeGap` returns (it populates exactly these
fields of the `GapAnalysisResult` interface). -/
structure GapAnalysisResult where
  targetNode : LearningNode
  gapScore : ℚ
  missingPrerequisites : List LearningNode
  recommendedPath : List LearningNode
  estimatedTime : ℚ
  confidence : ℚ
deriving DecidableEq, Repr

namespace GapAnalyzer

/-- `determineGapLevel`. -/
def determineGapLevel (gapScore : ℚ) : GapLevel :=
  if gapScore ≤ 33 then .low
  else if gapScore ≤ 66 then .medium
  else .high

/-- `determinePriority`. -/
def determinePriority (gapScore estimatedTime : ℚ) : GapPriority :=
  let timeHours := estimatedTime / 60
  if 80 ≤ gapScore ∨ timeHours ≤ 1 then .immediate
  else if 50 ≤ gapScore ∨ timeHours ≤ 3 then .shortTerm
  else .longTerm

/-- `determineCurrentLevel`: resolve the learner's current node.  The JS
`if (currentLevel)` guard is a truthiness test, so a hint of `0` is
ignored. -/
def determineCurrentLevel (ga : GapAnalyzer) (currentLevel : Option ℚ) : Option LearningNode :=
  let fromHint : Option LearningNode :=
    match currentLevel with
    | some lvl =>
      if lvl = 0 then none
      else
        let candidates := jsFilter (fun n => jsAbs (n.difficulty - lvl) ≤ 1) (jsValues ga.nodes)
        if candidates.isEmpty then none
        else (jsSortBy (fun a b =>
          masteryOf ga.userProgress b.id - masteryOf ga.userProgress a.id) candidates).head?
    | none => none
  match fromHint with
  | some n => some n
  | none =>
    let masteredNodes := jsFilter (fun e => HEURISTIC_WEIGHTS.MASTERY_THRESHOLD ≤ e.2)
      ga.userProgress
    if masteredNodes.isEmpty then
      (jsFilter (fun n => n.difficulty ≤ 3) (jsValues ga.nodes)).head?
    else
      let avgDifficulty :=
        (masteredNodes.foldl
          (fun sum e => sum + ((jsGet ga.nodes e.1).map LearningNode.difficulty).getD 0) 0)
        / (masteredNodes.length : ℚ)
      (jsFilter (fun n => jsAbs (n.difficulty - avgDifficulty) ≤ 1) (jsValues ga.nodes)).head?

/-- `calculateDifficultyGap`: note the single-sided `Math.min(100, …)` —
there is no lower clamp, so the result can be negative. -/
def calculateDifficultyGap (fromNode toNode : LearningNode) : ℚ :=
  let maxDifficulty : ℚ := 10
  let difficultyDiff := toNode.difficulty - fromNode.difficulty
  jsMin 100 (difficultyDiff / maxDifficulty * 100)

/-- The accumulation loop of `calculatePrerequisiteGap`: each unsatisfied
prerequisite (mastery below the threshold) contributes `(1 − mastery) × 100`
(the `satisfiedCount` counter is written but never read). -/
def prereqTotalGap (ga : GapAnalyzer) : List String → ℚ
  | [] => 0
  | prereqId :: rest =>
    let userMastery := masteryOf ga.userProgress prereqId
    (if HEURISTIC_WEIGHTS.MASTERY_THRESHOLD ≤ userMastery then 0 else (1 - userMastery) * 100)
      + prereqTotalGap ga rest

/-- `calculatePrerequisiteGap`. -/
def calculatePrerequisiteGap (ga : GapAnalyzer) (toNode : LearningNode) : ℚ :=
  if toNode.prerequisites.length = 0 then 0
  else prereqTotalGap ga toNode.prerequisites / (toNode.prerequisites.length : ℚ)

/-- `calculateLayerGap`. -/
def calculateLayerGap (fromNode toNode : LearningNode) : ℚ :=
  layerWeight fromNode.layer toNode.layer

/-- `calculateGapScore`: weighted sum over 3, then clamped into [0, 100]
by `Math.min(100, Math.max(0, …))`. -/
def calculateGapScore (ga : GapAnalyzer) (fromNode toNode : LearningNode) : ℚ :=
  let difficultyGap := calculateDifficultyGap fromNode toNode
  let prerequisiteGap := calculatePrerequisiteGap ga toNode
  let layerGap := calculateLayerGap fromNode toNode
  let weightedScore :=
    (difficultyGap * HEURISTIC_WEIGHTS.DIFFICULTY_GAP
      + prerequisiteGap * HEURISTIC_WEIGHTS.PREREQUISITE_GAP
      + layerGap * HEURISTIC_WEIGHTS.LAYER_GAP) / 3
  jsMin 100 (jsMax 0 weightedScore)

/-- The collection loop of `findMissingPrerequisites` (in prerequisite
order, keeping only ids that resolve in the index). -/
def missingPrereqList (ga : GapAnalyzer) : List String → List LearningNode
  | [] => []
  | prereqId :: rest =>
    let userMastery := masteryOf ga.userProgress prereqId
    match jsGet ga.nodes prereqId with
    | some prerequisiteNode =>
      if userMastery < HEURISTIC_WEIGHTS.MASTERY_THRESHOLD then
        prerequisiteNode :: missingPrereqList ga rest
      else missingPrereqList ga rest
    | none => missingPrereqList ga rest

/-- `findMissingPrerequisites`: unmet prerequisites sorted ascending by
difficulty (stable JS sort). -/
def findMissingPrerequisites (ga : GapAnalyzer) (toNode : LearningNode) : List LearningNode :=
  jsSortBy (fun a b => a.difficulty - b.difficulty) (missingPrereqList ga toNode.prerequisites)

/-- The prerequisite half of `getNeighbors` (ids resolved in order,
unresolved ids dropped). -/
def lookupNodes (ga : GapAnalyzer) : List String → List LearningNode
  | [] => []
  | id :: rest =>
    match jsGet ga.nodes id with
    | some n => n :: lookupNodes ga rest
    | none => lookupNodes ga rest

/-- `getNeighbors`: prerequisites ++ dependents, minus the node itself. -/
def getNeighbors (ga : GapAnalyzer) (node : LearningNode) : List LearningNode :=
  let fromPrereqs := lookupNodes ga node.prerequisites
  let fromDependents :=
    jsFilter (fun other => jsIncludes other.prerequisites node.id = true) (jsValues ga.nodes)
  jsFilter (fun neighbor => neighbor.id ≠ node.id) (fromPrereqs ++ fromDependents)

/-- `heuristic` (GapAnalyzer): absolute difficulty difference, 0 when an
endpoint is missing from the index. -/
def heuristic (ga : GapAnalyzer) (fromNodeId toNodeId : String) : ℚ :=
  match jsGet ga.nodes fromNodeId, jsGet ga.nodes toNodeId with
  | some fromNode, some toNode => jsAbs (toNode.difficulty - fromNode.difficulty)
  | _, _ => 0

/-- `findLowestFScore` (GapAnalyzer): first entry with the strictly
smallest stored score, `''` on an empty map. -/
def findLowestFScore (openSet : JsMap ℚ) : String :=
  match openSet.foldl
      (fun best e =>
        match best with
        | none => some e
        | some b => if e.2 < b.2 then some e else some b) none with
  | some e => e.1
  | none => ""

/-- `calculateTransitionCost` (GapAnalyzer). -/
def calculateTransitionCost (ga : GapAnalyzer) (fromNode toNode : LearningNode) : ℚ :=
  jsAbs (toNode.difficulty - fromNode.difficulty) * 10
    + layerWeight fromNode.layer toNode.layer
    + (1 - masteryOf ga.userProgress fromNode.id) * 5

/-- The body of `reconstructPath`'s `while (node)` walk, prepending each
resolved node (`path.unshift`).  `fuel` bounds the walk: the chain visits
distinct `cameFrom` keys unless it cycles, in which case the JS loop never
ends and the result is `none`. -/
def reconstructGo (ga : GapAnalyzer) (cameFrom : JsMap String) (fuel : ℕ) (node : String)
    (path : List LearningNode) : Option (List LearningNode) :=
  if node = "" then some path
  else if _h : fuel = 0 then none
  else
    let path' :=
      match jsGet ga.nodes node with
      | some nodeData => nodeData :: path
      | none => path
    reconstructGo ga cameFrom (fuel - 1) ((jsGet cameFrom node).getD "") path'
termination_by fuel
decreasing_by omega

/-- `reconstructPath`. -/
def reconstructPath (ga : GapAnalyzer) (cameFrom : JsMap String) (current : String) :
    Option (List LearningNode) :=
  reconstructGo ga cameFrom (cameFrom.length + 2) current []

/-- The mutable state of `findOptimalPath`'s search loop.  `gScore` and
`fScore` are initialised to `Infinity` for every node id; an absent key
stands for that `Infinity`. -/
structure GapSearchState where
  openSet : JsMap ℚ
  cameFrom : JsMap String
  gScore : JsMap ℚ
  fScore : JsMap ℚ
deriving DecidableEq, Repr

/-- The relaxation guard `tentativeGScore < (gScore.get(neighbor.id) || Infinity)`:
an absent entry stands for the `Infinity` written by the initialisation
loop, and a stored `0` is falsy, so `|| Infinity` replaces it too. -/
def ltStoredOrInfinity (tentative : ℚ) (stored : Option ℚ) : Bool :=
  match stored with
  | none => true
  | some x => if x = 0 then true else if tentative < x then true else false

/-- The `for (const neighbor of neighbors)` relaxation loop of
`findOptimalPath` (GapAnalyzer). -/
def relaxNeighbors (ga : GapAnalyzer) (toNodeId current : String) (g : ℚ)
    (currentNode : LearningNode) : List LearningNode → GapSearchState → GapSearchState
  | [], st => st
  | neighbor :: rest, st =>
    let tentativeGScore := g + calculateTransitionCost ga currentNode neighbor
    if ltStoredOrInfinity tentativeGScore (jsGet st.gScore neighbor.id) then
      let fzn := tentativeGScore + heuristic ga neighbor.id toNodeId
      let st' : GapSearchState :=
        { openSet :=
            if jsHas st.openSet neighbor.id then st.openSet
            else jsSet st.openSet neighbor.id fzn
          cameFrom := jsSet st.cameFrom neighbor.id current
          gScore := jsSet st.gScore neighbor.id tentativeGScore
          fScore := jsSet st.fScore neighbor.id fzn }
      relaxNeighbors ga toNodeId current g currentNode rest st'
    else relaxNeighbors ga toNodeId current g currentNode rest st

/-- Outcome of the GapAnalyzer search loop. -/
inductive GapSearchRes where
  /-- the goal was popped and `reconstructPath` returned -/
  | found (path : List LearningNode)
  /-- the open set emptied: fall through to `findMinimalPath` -/
  | exhausted
  /-- `reconstructPath` hit a `cameFrom` cycle: the JS walk never ends -/
  | reconDiverged
  /-- `getNeighbors` was reached with `nodes.get(current)` undefined -/
  | thrown
  /-- modelling fuel ran out: the JS loop is still running -/
  | fuelOut
deriving DecidableEq, Repr

/-- The `while (openSet.size > 0)` loop of `findOptimalPath`
(GapAnalyzer).  Note there is no closed set: a popped node re-enters the
open set whenever the relaxation guard fires for it again. -/
def gapSearchLoop (ga : GapAnalyzer) (toNodeId : String) (fuel : ℕ) (st : GapSearchState) :
    GapSearchRes :=
  if st.openSet.isEmpty then .exhausted
  else if _h : fuel = 0 then .fuelOut
  else
    let current := findLowestFScore st.openSet
    if current = toNodeId then
      match reconstructPath ga st.cameFrom current with
      | some path => .found path
      | none => .reconDiverged
    else
      match jsGet ga.nodes current with
      | none => .thrown
      | some currentNode =>
        let st₁ : GapSearchState := { st with openSet := jsDelete st.openSet current }
        let neighbors := getNeighbors ga currentNode
        let st₂ :=
          match jsGet st.gScore current with
          | some g => relaxNeighbors ga toNodeId current g currentNode neighbors st₁
          | none => st₁
        gapSearchLoop ga toNodeId (fuel - 1) st₂
termination_by fuel
decreasing_by omega

/-- `findMinimalPath`: the GapAnalyzer-side fallback
`[fromNode?, …missing prerequisites, targetNode]`. -/
def findMinimalPath (ga : GapAnalyzer) (fromNodeId toNodeId : String) : List LearningNode :=
  match jsGet ga.nodes toNodeId with
  | none => []
  | some targetNode =>
    let missing := findMissingPrerequisites ga targetNode
    (match jsGet ga.nodes fromNodeId with
     | some fromNode => [fromNode]
     | none => []) ++ missing ++ [targetNode]

/-- `findOptimalPath` (GapAnalyzer): A*-style search without a closed
set.  `none` models a call that never returns (or exhausted modelling
fuel). -/
def findOptimalPath (ga : GapAnalyzer) (fuel : ℕ) (fromNodeId toNodeId : String) :
    Option (List LearningNode) :=
  let h₀ := heuristic ga fromNodeId toNodeId
  let st : GapSearchState :=
    { openSet := [(fromNodeId, h₀)]
      cameFrom := []
      gScore := [(fromNodeId, 0)]
      fScore := [(fromNodeId, h₀)] }
  match gapSearchLoop ga toNodeId fuel st with
  | .found path => some path
  | .exhausted => some (findMinimalPath ga fromNodeId toNodeId)
  | _ => none

/-- `calculateEstimatedTime`. -/
def calculateEstimatedTime (ga : GapAnalyzer) (path : List LearningNode) : ℚ :=
  path.foldl
    (fun total node =>
      let baseTime := node.difficulty * 15
      let userMastery := masteryOf ga.userProgress node.id
      total + baseTime * (1 - userMastery * (5/10))) 0

/-- `breakdownTime` (`Math.round` is `⌊x + 1/2⌋`, Mathlib's `round`). -/
def breakdownTime (ga : GapAnalyzer) (path : List LearningNode) : ℤ × ℤ × ℤ :=
  let totalTime := calculateEstimatedTime ga path
  (round (totalTime * (3/10)), round (totalTime * (6/10)), round (totalTime * (1/10)))

/-- `calculateConfidence` (analysis confidence, 0–100 scale). -/
def calculateConfidence (gapScore : ℚ) (missingCount : ℕ) : ℚ :=
  let gapConfidence := jsMax 0 (100 - gapScore)
  let prerequisiteConfidence := jsMax 0 (100 - (missingCount : ℚ) * 10)
  (gapConfidence + prerequisiteConfidence) / 2

/-- `getCurrentNodeId`. -/
def getCurrentNodeId (ga : GapAnalyzer) (currentLevel : Option ℚ) : String :=
  match determineCurrentLevel ga currentLevel with
  | some n => n.id
  | none => "unknown"

/-- `analyzeGap`: `none` models a thrown `Error` (unknown target id or
unresolvable current level) or a call that never returns. -/
def analyzeGap (ga : GapAnalyzer) (fuel : ℕ) (targetNodeId : String)
    (currentLevel : Option ℚ) : Option GapAnalysisResult :=
  match jsGet ga.nodes targetNodeId with
  | none => none
  | some targetNode =>
    match determineCurrentLevel ga currentLevel with
    | none => none
    | some currentNode =>
      let gapScore := calculateGapScore ga currentNode targetNode
      let missingPrerequisites := findMissingPrerequisites ga targetNode
      match findOptimalPath ga fuel currentNode.id targetNode.id with
      | none => none
      | some recommendedPath =>
        let estimatedTime := calculateEstimatedTime ga recommendedPath
        some { targetNode := targetNode
               gapScore := gapScore
               missingPrerequisites := missingPrerequisites
               recommendedPath := recommendedPath
               estimatedTime := estimatedTime
               confidence := calculateConfidence gapScore missingPrerequisites.length }

end GapAnalyzer

/-- One entry of `analyzeMultipleGaps`' result. -/
structure GapAnalysisDetail where
  nodeId : String
  targetNodeId : String
  gapScore : ℚ
  gapLevel : GapLevel
  priority : GapPriority
  missingPrerequisites : List LearningNode
  recommendedPath : List LearningNode
  estimatedTime : ℚ
  timeBreakdown : ℤ × ℤ × ℤ
deriving DecidableEq, Repr

/-- `GapMetrics` as `collectGapMetrics` populates it:
`gapDistribution` is the `(low, medium, high)` counter triple and each
`mostCommonGaps` entry is `(nodeId, gapScore, gapCount)`. -/
structure GapMetrics where
  totalGapScore : ℚ
  averageGapScore : ℚ
  gapDistribution : ℕ × ℕ × ℕ
  mostCommonGaps : List (String × ℚ × ℕ)
deriving DecidableEq, Repr

namespace GapAnalyzer

/-- The `targetNodeIds.map(targetId => { … analyzeGap … })` loop of
`analyzeMultipleGaps`; a thrown `analyzeGap` aborts the whole call. -/
def analyzeMultipleGapsGo (ga : GapAnalyzer) (fuel : ℕ) (currentLevel : Option ℚ) :
    List String → Option (List GapAnalysisDetail)
  | [] => some []
  | targetId :: rest =>
    match analyzeGap ga fuel targetId currentLevel with
    | none => none
    | some result =>
      match analyzeMultipleGapsGo ga fuel currentLevel rest with
      | none => none
      | some others =>
        some ({ nodeId := getCurrentNodeId ga currentLevel
                targetNodeId := targetId
                gapScore := result.gapScore
                gapLevel := determineGapLevel result.gapScore
                priority := determinePriority result.gapScore result.estimatedTime
                missingPrerequisites := result.missingPrerequisites
                recommendedPath := result.recommendedPath
                estimatedTime := result.estimatedTime
                timeBreakdown := breakdownTime ga result.recommendedPath } :: others)

/-- `analyzeMultipleGaps`: per-target details sorted descending by gap
score. -/
def analyzeMultipleGaps (ga : GapAnalyzer) (fuel : ℕ) (targetNodeIds : List String)
    (currentLevel : Option ℚ) : Option (List GapAnalysisDetail) :=
  (analyzeMultipleGapsGo ga fuel currentLevel targetNodeIds).map
    (jsSortBy (fun a b => b.gapScore - a.gapScore))

/-- `analyses.find(a => a.targetNodeId === nodeId)?.gapScore || 0` inside
`collectGapMetrics` (a found score of 0 is falsy and also yields 0). -/
def firstGapScoreFor (nodeId : String) : List GapAnalysisDetail → ℚ
  | [] => 0
  | a :: rest => if a.targetNodeId = nodeId then a.gapScore else firstGapScoreFor nodeId rest

/-- The `gapCounts` accumulation of `collectGapMetrics`. -/
def gapCountsOf (analyses : List GapAnalysisDetail) : JsMap ℕ :=
  analyses.foldl (fun gc a => jsSet gc a.targetNodeId ((jsGet gc a.targetNodeId).getD 0 + 1)) []

/-- `collectGapMetrics`.  `averageGapScore` is `totalGapScore / analyses.length`
with no emptiness guard (on an empty batch JS produces `0/0 = NaN`; in ℚ
the same division is written literally). -/
def collectGapMetrics (ga : GapAnalyzer) (fuel : ℕ) (targetNodeIds : List String) :
    Option GapMetrics :=
  match analyzeMultipleGaps ga fuel targetNodeIds none with
  | none => none
  | some analyses =>
    let totalGapScore := analyses.foldl (fun s a => s + a.gapScore) 0
    let gapDistribution := analyses.foldl
      (fun d a =>
        match a.gapLevel with
        | .low => (d.1 + 1, d.2.1, d.2.2)
        | .medium => (d.1, d.2.1 + 1, d.2.2)
        | .high => (d.1, d.2.1, d.2.2 + 1))
      ((0, 0, 0) : ℕ × ℕ × ℕ)
    let mostCommonGaps :=
      (jsSortBy (fun a b => ((b.2.2 : ℚ) - (a.2.2 : ℚ)))
        ((gapCountsOf analyses).map
          (fun e => (e.1, firstGapScoreFor e.1 analyses, e.2)))).take 10
    some { totalGapScore := totalGapScore
           averageGapScore := totalGapScore / (analyses.length : ℚ)
           gapDistribution := gapDistribution
           mostCommonGaps := mostCommonGaps }

end GapAnalyzer

/-! ## PathFinder.ts -/

/-- `HeuristicConfig`.  The `mode` switch applies `Math.exp(score/10)` /
`Math.log(1+score)` / the identity to the raw score; real-valued
transforms are modelled by an arbitrary function `modeTransform`, with the
identity for `'linear'`. -/
structure HeuristicConfig where
  modeTransform : ℚ → ℚ
  difficultyWeight : ℚ
  layerWeight : ℚ
  masteryBonus : ℚ

/-- The constructor's default config: `'linear'`, weights 1.0/1.0, bonus 0.5. -/
def defaultHeuristicConfig : HeuristicConfig :=
  { modeTransform := id, difficultyWeight := 1, layerWeight := 1, masteryBonus := 5/10 }

/-- `PathResult` of `types.ts`. -/
structure PathResult where
  path : List LearningNode
  totalCost : ℚ
  totalTime : ℚ
  confidence : ℚ
  alternativePaths : List (List LearningNode)
deriving DecidableEq, Repr

/-- `GapAnalysisOptions` with the defaults `findOptimalPath` destructures.
`timeLimit` (default 30000 ms) only feeds the wall-clock comparison, which
is modelled by the abstract time oracle. -/
structure GapAnalysisOptions where
  maxPathLength : ℕ := 20
  includeAlternatives : Bool := false
  confidenceThreshold : ℚ := 5/10
  timeLimit : ℚ := 30000

/-- `PathNode` of `PathFinder.ts`: the open/closed-set entry, with a
back-pointer chain in `previous`. -/
inductive PathNode : Type where
  | mk (node : LearningNode) (gScore hScore fScore : ℚ) (previous : Option PathNode)
      (openFlag : Bool)

/-- Field accessor: `pathNode.node`. -/
def PathNode.node : PathNode → LearningNode
  | .mk n _ _ _ _ _ => n

/-- Field accessor: `pathNode.gScore`. -/
def PathNode.gScore : PathNode → ℚ
  | .mk _ g _ _ _ _ => g

/-- Field accessor: `pathNode.fScore`. -/
def PathNode.fScore : PathNode → ℚ
  | .mk _ _ _ f _ _ => f

/-- Field accessor: `pathNode.open`. -/
def PathNode.openFlag : PathNode → Bool
  | .mk _ _ _ _ _ o => o

/-- The `while (pathNode) { pathNodes.unshift(pathNode); … }` walk of
`buildPathResult`, already mapped through `.node`. -/
def PathNode.chain : PathNode → List LearningNode
  | .mk n _ _ _ prev _ =>
    match prev with
    | some p => PathNode.chain p ++ [n]
    | none => [n]

/-- The `PathFinder` class state. -/
structure PathFinder where
  nodes : JsMap LearningNode
  userProgress : JsMap ℚ
  heuristicConfig : HeuristicConfig

/-- `new PathFinder(nodes, userProgress, heuristicConfig)`: index, copy,
and the (already merged) heuristic config. -/
def PathFinder.create (nodes : List LearningNode) (userProgress : JsMap ℚ)
    (heuristicConfig : HeuristicConfig := defaultHeuristicConfig) : PathFinder :=
  { nodes := nodesMap nodes, userProgress := jsCopy userProgress,
    heuristicConfig := heuristicConfig }

/-- `Set.prototype.add` on the closed set. -/
def setAdd (s : List String) (x : String) : List String :=
  if jsIncludes s x = true then s else s ++ [x]

namespace PathFinder

/-- `getLayerDistance`: `|layerOrder[layer2] - layerOrder[layer1]|` with
`layerOrder = {L1: 1, L2: 2, L3: 3}`. -/
def getLayerDistance (layer1 layer2 : Layer) : ℚ :=
  let ord : Layer → ℚ := fun l => match l with | .L1 => 1 | .L2 => 2 | .L3 => 3
  jsAbs (ord layer2 - ord layer1)

/-- `heuristic` (PathFinder): weighted difficulty/layer distance minus the
mastery bonus, then the mode transform; 0 when an endpoint id does not
resolve (returned before any transform). -/
def heuristic (pf : PathFinder) (fromNodeId toNodeId : String) : ℚ :=
  match jsGet pf.nodes fromNodeId, jsGet pf.nodes toNodeId with
  | some fromNode, some toNode =>
    let score :=
      jsAbs (toNode.difficulty - fromNode.difficulty) * pf.heuristicConfig.difficultyWeight
        + getLayerDistance fromNode.layer toNode.layer * pf.heuristicConfig.layerWeight
        - (masteryOf pf.userProgress fromNodeId - masteryOf pf.userProgress toNodeId)
            * pf.heuristicConfig.masteryBonus
    pf.heuristicConfig.modeTransform score
  | _, _ => 0

/-- `calculateTransitionCost` (PathFinder), on two `LearningNode`s as its
signature declares. -/
def calculateTransitionCost (pf : PathFinder) (fromNode toNode : LearningNode) : ℚ :=
  jsMax 0 (toNode.difficulty - fromNode.difficulty) * 5
    + getLayerDistance fromNode.layer toNode.layer * 10
    + (1 - masteryOf pf.userProgress fromNode.id) * 5
    + (if jsIncludes fromNode.prerequisites toNode.id = true then 0 else 15)

/-- The prerequisite half of `getValidNeighbors` (resolved, not closed). -/
def validPrereqNeighbors (pf : PathFinder) (closedSet : List String) :
    List String → List LearningNode
  | [] => []
  | prereqId :: rest =>
    match jsGet pf.nodes prereqId with
    | some prereqNode =>
      if jsIncludes closedSet prereqId = true then validPrereqNeighbors pf closedSet rest
      else prereqNode :: validPrereqNeighbors pf closedSet rest
    | none => validPrereqNeighbors pf closedSet rest

/-- `getValidNeighbors`: prerequisites and dependents not yet closed,
then the mastery-dependent difficulty-jump filter
`|Δdifficulty| ≤ 1 + (1 − mastery(node)) × 2`. -/
def getValidNeighbors (pf : PathFinder) (node : LearningNode) (closedSet : List String) :
    List LearningNode :=
  let fromPrereqs := validPrereqNeighbors pf closedSet node.prerequisites
  let fromDependents :=
    jsFilter
      (fun other => other.id ≠ node.id ∧ jsIncludes closedSet other.id = false ∧
        jsIncludes other.prerequisites node.id = true)
      (jsValues pf.nodes)
  let userMastery := masteryOf pf.userProgress node.id
  let difficultyThreshold := 1 + (1 - userMastery) * 2
  jsFilter (fun neighbor => jsAbs (neighbor.difficulty - node.difficulty) ≤ difficultyThreshold)
    (fromPrereqs ++ fromDependents)

/-- `findLowestFScore` (PathFinder): first open entry with the strictly
lowest `fScore`; if none qualifies, the first stored entry
(`openSet.values().next().value`); `none` only on an empty map. -/
def findLowestFScoreP (openSet : JsMap PathNode) : Option PathNode :=
  let best := openSet.foldl
    (fun best e =>
      match best with
      | none => if e.2.openFlag = true then some e.2 else none
      | some b => if e.2.openFlag = true ∧ e.2.fScore < b.fScore then some e.2 else some b)
    none
  match best with
  | some n => some n
  | none => (openSet.head?).map Prod.snd

/-- `calculateTotalTime`. -/
def calculateTotalTime (pf : PathFinder) (path : List LearningNode) : ℚ :=
  path.foldl
    (fun total node =>
      total + node.difficulty * 15 * (1 - masteryOf pf.userProgress node.id * (5/10))) 0

/-- The consecutive-pairs loop of `calculatePathConfidence`.  The JS ratio
`to.difficulty / from.difficulty` is written as ℚ division; they agree on
the difficulty range 1–10 (for a zero divisor JS yields `±Infinity`/`NaN`
while ℚ yields 0 — both land in the same `[0.5, 1]` per-step band). -/
def pathConfidenceLoop (pf : PathFinder) : LearningNode → List LearningNode → ℚ
  | _, [] => 0
  | a, b :: rest =>
    let difficultyRatio := b.difficulty / a.difficulty
    (if difficultyRatio ≤ 2 then 8/10 else 5/10)
      + (if (7/10 : ℚ) ≤ masteryOf pf.userProgress a.id then 2/10 else 0)
      + pathConfidenceLoop pf b rest

/-- `calculatePathConfidence`: 0 for paths of length ≤ 1, otherwise the
per-step average. -/
def calculatePathConfidence (pf : PathFinder) (path : List LearningNode) : ℚ :=
  if path.length ≤ 1 then 0
  else
    match path with
    | [] => 0
    | a :: rest =>
      let totalConfidence := pathConfidenceLoop pf a rest
      let validSteps := rest.length
      if 0 < validSteps then totalConfidence / (validSteps : ℚ) else 0

/-- `buildPathResult`: reconstruct through the `previous` chain (the
`cameFrom` argument is passed but never read by the source either). -/
def buildPathResult (pf : PathFinder) (_cameFrom : JsMap PathNode) (current : PathNode) :
    PathResult :=
  let path := current.chain
  { path := path
    totalCost := current.gScore
    totalTime := calculateTotalTime pf path
    confidence := calculatePathConfidence pf path
    alternativePaths := [] }

/-- `buildFallbackPath`: the fixed two-node `[startNode, endNode]` result
with cost 100, time 120, confidence 0.3. -/
def buildFallbackPath (pf : PathFinder) (fromNodeId toNodeId : String) : PathResult :=
  match jsGet pf.nodes fromNodeId, jsGet pf.nodes toNodeId with
  | some startNode, some endNode =>
    { path := [startNode, endNode], totalCost := 100, totalTime := 120,
      confidence := 3/10, alternativePaths := [] }
  | _, _ =>
    { path := [], totalCost := 0, totalTime := 0, confidence := 0, alternativePaths := [] }

/-- The state of the `aStar` loop. -/
structure AStarState where
  openSet : JsMap PathNode
  closedSet : List String
  cameFrom : JsMap PathNode

/-- Outcome of the `aStar` `while` loop. -/
inductive AStarLoopRes where
  /-- the goal was popped: `buildPathResult` -/
  | reached (r : PathResult)
  /-- time limit, max length, or exhausted open set: fall through to the
  fallback path -/
  | failed
  /-- the relaxation `calculateTransitionCost(current, neighbor)` passes
  the `PathNode` wrapper where a `LearningNode` is expected, so
  `fromNode.prerequisites` is `undefined` and `.includes(...)` throws a
  `TypeError` -/
  | thrown
  /-- modelling fuel ran out -/
  | fuelOut
deriving DecidableEq, Repr

/-- The `while (openSet.size > 0 && performance.now() - startTime < timeLimit)`
loop of `aStar`.  `timeOk i` is the abstract wall-clock check at
iteration `i`. -/
def aStarLoop (pf : PathFinder) (toNodeId : String) (maxPathLength : ℕ) (timeOk : ℕ → Bool)
    (fuel i : ℕ) (st : AStarState) : AStarLoopRes :=
  if st.openSet.isEmpty ∨ timeOk i = false then .failed
  else if _h : fuel = 0 then .fuelOut
  else
    match findLowestFScoreP st.openSet with
    | none => .failed
    | some current =>
      let openSet' := jsDelete st.openSet current.node.id
      if current.node.id = toNodeId then .reached (buildPathResult pf st.cameFrom current)
      else if maxPathLength ≤ st.closedSet.length then .failed
      else
        let closed' := setAdd st.closedSet current.node.id
        let neighbors := getValidNeighbors pf current.node closed'
        if neighbors.isEmpty then
          aStarLoop pf toNodeId maxPathLength timeOk (fuel - 1) (i + 1)
            { openSet := openSet', closedSet := closed', cameFrom := st.cameFrom }
        else .thrown
termination_by fuel
decreasing_by omega

/-- Result of `aStar` as seen by its callers. -/
inductive AStarRes where
  /-- `return null` (an endpoint id does not resolve) -/
  | nullRes
  /-- a `PathResult` (goal reached, or the fallback path) -/
  | ok (r : PathResult)
  /-- the `TypeError` thrown in the relaxation step propagates -/
  | thrown
  /-- modelling fuel ran out -/
  | fuelOut
deriving DecidableEq, Repr

/-- The initial search state of `aStar`: the start `PathNode` with
`gScore = 0`, `hScore = heuristic(start, goal)`,
`fScore = gScore + hScore`). -/
def aStarInitState (pf : PathFinder) (fromNodeId toNodeId : String)
    (startNode : LearningNode) : AStarState :=
  let h₀ := heuristic pf fromNodeId toNodeId
  { openSet := [(fromNodeId, .mk startNode 0 h₀ (0 + h₀) none true)], closedSet := [],
    cameFrom := [] }

/-- `aStar`: initialise the start `PathNode` and run the loop; the loop's
fall-through returns `buildFallbackPath`.  The fuel `maxPathLength + 2`
is provably never exhausted (closed-set discipline). -/
def aStar (pf : PathFinder) (fromNodeId toNodeId : String) (maxPathLength : ℕ)
    (timeOk : ℕ → Bool) : AStarRes :=
  match jsGet pf.nodes fromNodeId, jsGet pf.nodes toNodeId with
  | some startNode, some _endNode =>
    match aStarLoop pf toNodeId maxPathLength timeOk (maxPathLength + 2) 0
        (aStarInitState pf fromNodeId toNodeId startNode) with
    | .reached r => .ok r
    | .failed => .ok (buildFallbackPath pf fromNodeId toNodeId)
    | .thrown => .thrown
    | .fuelOut => .fuelOut
  | _, _ => .nullRes

end PathFinder

namespace PathFinder

/-- `isSuitableIntermediate`: compares the heuristic towards the target
with `heuristic('start', node.id)` — `'start'` is a literal id, so unless
a node called `start` exists the comparison is against 0. -/
def isSuitableIntermediate (pf : PathFinder) (node target : LearningNode) : Bool :=
  let toTargetDistance := heuristic pf node.id target.id
  let fromStartDistance := heuristic pf "start" node.id
  if toTargetDistance < fromStartDistance then true else false

/-- The candidate pipeline of `findViaIntermediate`: non-endpoint nodes
passing `isSuitableIntermediate`, sorted ascending by
`heuristic(from,c) + heuristic(c,to)`, first 3. -/
def viaIntermediateCandidates (pf : PathFinder) (fromNodeId toNodeId : String)
    (targetNode : LearningNode) : List LearningNode :=
  (jsSortBy
      (fun a b =>
        (heuristic pf fromNodeId a.id + heuristic pf a.id toNodeId)
          - (heuristic pf fromNodeId b.id + heuristic pf b.id toNodeId))
      (jsFilter
        (fun node => node.id ≠ fromNodeId ∧ node.id ≠ toNodeId ∧
          isSuitableIntermediate pf node targetNode = true)
        (jsValues pf.nodes))).take 3

/-- The `for (const intermediate of intermediateNodes)` loop of
`findViaIntermediate`: two half-budget `aStar` runs per candidate (their
wall clocks indexed by `timeOks`), concatenated as
`[...path1.path, ...path2.path.slice(1)]` on the first candidate where
both are non-null; a thrown inner `aStar` is caught and the loop
continues. -/
def viaIntermediateGo (pf : PathFinder) (fromNodeId toNodeId : String) (maxPathLength : ℕ)
    (timeOks : ℕ → ℕ → Bool) : ℕ → List LearningNode → Option PathResult
  | _, [] => none
  | k, intermediate :: rest =>
    let path1 := aStar pf fromNodeId intermediate.id maxPathLength (timeOks (2 * k))
    let path2 := aStar pf intermediate.id toNodeId maxPathLength (timeOks (2 * k + 1))
    match path1, path2 with
    | .ok r1, .ok r2 =>
      some { path := r1.path ++ r2.path.tail
             totalCost := r1.totalCost + r2.totalCost
             totalTime := r1.totalTime + r2.totalTime
             confidence := (r1.confidence + r2.confidence) / 2
             alternativePaths := [] }
    | _, _ => viaIntermediateGo pf fromNodeId toNodeId maxPathLength timeOks (k + 1) rest

/-- `findViaIntermediate`. -/
def findViaIntermediate (pf : PathFinder) (fromNodeId toNodeId : String) (maxPathLength : ℕ)
    (timeOks : ℕ → ℕ → Bool) : Option PathResult :=
  match jsGet pf.nodes toNodeId with
  | none => none
  | some targetNode =>
    viaIntermediateGo pf fromNodeId toNodeId maxPathLength timeOks 0
      (viaIntermediateCandidates pf fromNodeId toNodeId targetNode)

/-- `getOptimalLayerSequence`: the inclusive slice of `['L1','L2','L3']`
between the two layers, reversed when descending. -/
def getOptimalLayerSequence : Layer → Layer → List Layer
  | .L1, .L1 => [.L1]
  | .L2, .L2 => [.L2]
  | .L3, .L3 => [.L3]
  | .L1, .L2 => [.L1, .L2]
  | .L1, .L3 => [.L1, .L2, .L3]
  | .L2, .L3 => [.L2, .L3]
  | .L2, .L1 => [.L2, .L1]
  | .L3, .L1 => [.L3, .L2, .L1]
  | .L3, .L2 => [.L3, .L2]

/-- The `reduce` of `findViaLayerTransition` picking the first bridge node
with the strictly lowest transition cost (initial accumulator
`{node: null, cost: Infinity}`). -/
def bestBridgeOf (pf : PathFinder) (lastNode : LearningNode) (bridgeNodes : List LearningNode) :
    Option LearningNode :=
  (bridgeNodes.foldl
    (fun best node =>
      let cost := calculateTransitionCost pf lastNode node
      match best with
      | none => some (node, cost)
      | some (bn, bc) => if cost < bc then some (node, cost) else some (bn, bc)) none).map
    Prod.fst

/-- The `for (const layer of layerSequence)` loop of
`findViaLayerTransition`, greedily appending the best bridge node of each
layer. -/
def viaLayerLoop (pf : PathFinder) : List Layer → List LearningNode → List LearningNode
  | [], currentPath => currentPath
  | layer :: rest, currentPath =>
    match currentPath.getLast? with
    | none => viaLayerLoop pf rest currentPath
    | some lastNode =>
      let bridgeNodes :=
        jsFilter (fun node => node.layer = layer ∧ node.id ≠ lastNode.id) (jsValues pf.nodes)
      if bridgeNodes.isEmpty then viaLayerLoop pf rest currentPath
      else
        match bestBridgeOf pf lastNode bridgeNodes with
        | some bestBridge => viaLayerLoop pf rest (currentPath ++ [bestBridge])
        | none => viaLayerLoop pf rest currentPath

/-- The `gScore` accumulation of `buildPathFromNodeList`; the final
accumulator is `path[path.length - 1].gScore`, the total cost. -/
def accumulateCosts (pf : PathFinder) : ℚ → LearningNode → List LearningNode → ℚ
  | g, _, [] => g
  | g, prev, n :: rest => accumulateCosts pf (g + calculateTransitionCost pf prev n) n rest

/-- `buildPathFromNodeList`.  On an empty list `path[path.length - 1]` is
`undefined` and reading `.gScore` throws; every caller passes a nonempty
list, and the empty case is modelled as `none`. -/
def buildPathFromNodeList (pf : PathFinder) (pathNodes : List LearningNode) :
    Option PathResult :=
  match pathNodes with
  | [] => none
  | a :: rest =>
    some { path := pathNodes
           totalCost := accumulateCosts pf 0 a rest
           totalTime := calculateTotalTime pf pathNodes
           confidence := calculatePathConfidence pf pathNodes
           alternativePaths := [] }

/-- `findViaLayerTransition`. -/
def findViaLayerTransition (pf : PathFinder) (fromNodeId toNodeId : String) :
    Option PathResult :=
  match jsGet pf.nodes fromNodeId, jsGet pf.nodes toNodeId with
  | some startNode, some endNode =>
    let layerSequence := getOptimalLayerSequence startNode.layer endNode.layer
    let currentPath := viaLayerLoop pf layerSequence [startNode]
    let finalPath :=
      if ((currentPath.getLast?).map LearningNode.id).getD "" ≠ toNodeId then
        currentPath ++ [endNode]
      else currentPath
    buildPathFromNodeList pf finalPath
  | _, _ => none

/-- `calculateProgress`: normalized difficulty progress in [0, 1], 0.5 on
equal endpoint difficulties. -/
def calculateProgress (node startNode endNode : LearningNode) : ℚ :=
  let startDiff := node.difficulty - startNode.difficulty
  let totalDiff := endNode.difficulty - startNode.difficulty
  if totalDiff = 0 then 5/10
  else jsMax 0 (jsMin 1 (startDiff / totalDiff))

/-- The greedy append loop of `findViaDifficultyProgression` (skip
visited ids and stop growing at `maxPathLength`; append when the
transition cost from the running tail is ≤ 20). -/
def viaDifficultyLoop (pf : PathFinder) (maxPathLength : ℕ) :
    List LearningNode → List LearningNode → List String → List LearningNode
  | [], path, _ => path
  | node :: rest, path, visited =>
    if jsIncludes visited node.id = true ∨ maxPathLength ≤ path.length then
      viaDifficultyLoop pf maxPathLength rest path visited
    else
      match path.getLast? with
      | none => viaDifficultyLoop pf maxPathLength rest path visited
      | some lastNode =>
        if calculateTransitionCost pf lastNode node ≤ 20 then
          viaDifficultyLoop pf maxPathLength rest (path ++ [node]) (visited ++ [node.id])
        else viaDifficultyLoop pf maxPathLength rest path visited

/-- `findViaDifficultyProgression`. -/
def findViaDifficultyProgression (pf : PathFinder) (fromNodeId toNodeId : String)
    (maxPathLength : ℕ) : Option PathResult :=
  match jsGet pf.nodes fromNodeId, jsGet pf.nodes toNodeId with
  | some startNode, some endNode =>
    let sortedNodes :=
      jsSortBy (fun a b => calculateProgress b startNode endNode - calculateProgress a startNode endNode)
        (jsFilter
          (fun node => jsAbs (node.difficulty - startNode.difficulty) ≤ 3 ∧
            jsAbs (node.difficulty - endNode.difficulty) ≤ 3)
          (jsValues pf.nodes))
    let path := viaDifficultyLoop pf maxPathLength sortedNodes [startNode] [fromNodeId]
    let finalPath :=
      if ((path.getLast?).map LearningNode.id).getD "" ≠ toNodeId then path ++ [endNode]
      else path
    buildPathFromNodeList pf finalPath
  | _, _ => none

/-- `findAlternativePaths`: the three strategies in order, each
best-effort (a thrown strategy contributes nothing — inside the model the
only throwing call site, the inner `aStar`, is already caught by
`findViaIntermediate` itself). -/
def findAlternativePaths (pf : PathFinder) (fromNodeId toNodeId : String) (maxPathLength : ℕ)
    (timeOks : ℕ → ℕ → Bool) : List PathResult :=
  match jsGet pf.nodes toNodeId with
  | none => []
  | some _ =>
    (match findViaIntermediate pf fromNodeId toNodeId maxPathLength timeOks with
     | some r => [r]
     | none => []) ++
    (match findViaLayerTransition pf fromNodeId toNodeId with
     | some r => [r]
     | none => []) ++
    (match findViaDifficultyProgression pf fromNodeId toNodeId maxPathLength with
     | some r => [r]
     | none => [])

/-- The comparator of `selectBestPath`: confidence descending, then total
cost ascending, then total time ascending. -/
def selectBestCmp (a b : PathResult) : ℚ :=
  if a.confidence ≠ b.confidence then b.confidence - a.confidence
  else if a.totalCost ≠ b.totalCost then a.totalCost - b.totalCost
  else a.totalTime - b.totalTime

/-- `selectBestPath`, returning the INDEX of the chosen element of
`paths` (JS selects by object reference; an index models that exactly):
the first element of the stable-sorted confidence-passing sublist, else
`paths[0]`; `none` only for an empty list. -/
def selectBestPathIdx (paths : List PathResult) (confidenceThreshold : ℚ) : Option ℕ :=
  if paths.isEmpty then none
  else
    let passing := jsFilter (fun e => confidenceThreshold ≤ e.2.confidence) paths.enum
    match (jsSortBy (fun a b => selectBestCmp a.2 b.2) passing).head? with
    | some e => some e.1
    | none => some 0

/-- Result of `findOptimalPath` (PathFinder): a `PathResult`, or the
propagated relaxation `TypeError` (nothing catches it), or exhausted
modelling fuel. -/
inductive FindPathRes where
  | ok (r : PathResult)
  | thrown
  | fuelOut
deriving DecidableEq, Repr

/-- `findOptimalPath` (PathFinder): primary `aStar` (oracle `timeOks 0`),
optional alternatives (oracles `timeOks (k+1)`), best-path selection, and
the final result object (`bestPath?.path || []` etc.). -/
def findOptimalPath (pf : PathFinder) (fromNodeId toNodeId : String)
    (options : GapAnalysisOptions) (timeOks : ℕ → ℕ → Bool) : FindPathRes :=
  match aStar pf fromNodeId toNodeId options.maxPathLength (timeOks 0) with
  | .thrown => .thrown
  | .fuelOut => .fuelOut
  | mainRes =>
    let mainPaths := match mainRes with | .ok r => [r] | _ => []
    let allPaths := mainPaths ++
      (if options.includeAlternatives = true then
        findAlternativePaths pf fromNodeId toNodeId options.maxPathLength
          (fun k => timeOks (k + 1))
      else [])
    match selectBestPathIdx allPaths options.confidenceThreshold with
    | none => .ok { path := [], totalCost := 0, totalTime := 0, confidence := 0,
                    alternativePaths := [] }
    | some bestIdx =>
      match allPaths.get? bestIdx with
      | none => .ok { path := [], totalCost := 0, totalTime := 0, confidence := 0,
                      alternativePaths := [] }
      | some bestPath =>
        .ok { path := bestPath.path
              totalCost := bestPath.totalCost
              totalTime := bestPath.totalTime
              confidence := bestPath.confidence
              alternativePaths :=
                (jsFilter (fun e => e.1 ≠ bestIdx) allPaths.enum).map (fun e => e.2.path) }

end PathFinder

/-! ## Generic lemmas about the JS primitives -/

theorem jsInsert_perm {α : Type} (cmp : α → α → ℚ) (x : α) (l : List α) :
    (jsInsert cmp x l).Perm (x :: l) := by
  induction l with
  | nil => simp [jsInsert]
  | cons y ys ih =>
    by_cases h : cmp x y ≤ 0
    · simp [jsInsert, h]
    · simp only [jsInsert, if_neg h]
      exact ((ih.cons y).trans (List.Perm.swap x y ys))

theorem jsSortBy_perm {α : Type} (cmp : α → α → ℚ) (l : List α) :
    (jsSortBy cmp l).Perm l := by
  induction l with
  | nil => simp [jsSortBy]
  | cons x xs ih =>
    exact (jsInsert_perm cmp x (jsSortBy cmp xs)).trans (ih.cons x)

theorem jsSortBy_length {α : Type} (cmp : α → α → ℚ) (l : List α) :
    (jsSortBy cmp l).length = l.length :=
  (jsSortBy_perm cmp l).length_eq

theorem mem_jsSortBy {α : Type} {cmp : α → α → ℚ} {l : List α} {x : α} :
    x ∈ jsSortBy cmp l ↔ x ∈ l :=
  (jsSortBy_perm cmp l).mem_iff

theorem jsInsert_key_sorted {α : Type} (key : α → ℚ) (x : α) (l : List α)
    (hl : l.Pairwise (fun a b => key a ≤ key b)) :
    (jsInsert (fun a b => key a - key b) x l).Pairwise (fun a b => key a ≤ key b) := by
  induction l with
  | nil => simp [jsInsert]
  | cons y ys ih =>
    rcases List.pairwise_cons.mp hl with ⟨hy, hys⟩
    by_cases h : key x - key y ≤ 0
    · have hxy : key x ≤ key y := by linarith
      rw [jsInsert, if_pos h]
      refine List.pairwise_cons.mpr ⟨?_, hl⟩
      intro b hb
      rcases List.mem_cons.mp hb with rfl | hb
      · exact hxy
      · exact hxy.trans (hy b hb)
    · have hyx : key y ≤ key x := by
        have := lt_of_not_le h
        linarith
      rw [jsInsert, if_neg h]
      refine List.pairwise_cons.mpr ⟨?_, ih hys⟩
      intro b hb
      rcases List.mem_cons.mp ((jsInsert_perm (fun a b => key a - key b) x ys).mem_iff.mp hb)
        with h' | h'
      · subst h'
        exact hyx
      · exact hy b h'

theorem jsSortBy_key_sorted {α : Type} (key : α → ℚ) (l : List α) :
    (jsSortBy (fun a b => key a - key b) l).Pairwise (fun a b => key a ≤ key b) := by
  induction l with
  | nil => simp [jsSortBy]
  | cons x xs ih => exact jsInsert_key_sorted key x _ ih

theorem mem_jsFilter {α : Type} {p : α → Prop} [DecidablePred p] {l : List α} {x : α} :
    x ∈ jsFilter p l ↔ x ∈ l ∧ p x := by
  induction l with
  | nil => simp [jsFilter]
  | cons y ys ih =>
    by_cases h : p y
    · rw [jsFilter, if_pos h]
      constructor
      · intro hx
        rcases List.mem_cons.mp hx with rfl | hx
        · exact ⟨List.mem_cons_self _ _, h⟩
        · exact ⟨List.mem_cons_of_mem _ (ih.mp hx).1, (ih.mp hx).2⟩
      · rintro ⟨hx, hpx⟩
        rcases List.mem_cons.mp hx with rfl | hx
        · exact List.mem_cons_self _ _
        · exact List.mem_cons_of_mem _ (ih.mpr ⟨hx, hpx⟩)
    · rw [jsFilter, if_neg h]
      constructor
      · intro hx
        exact ⟨List.mem_cons_of_mem _ (ih.mp hx).1, (ih.mp hx).2⟩
      · rintro ⟨hx, hpx⟩
        rcases List.mem_cons.mp hx with rfl | hx
        · exact absurd hpx h
        · exact ih.mpr ⟨hx, hpx⟩

/-! ## Bounds of the scoring functions -/

theorem calculateGapScore_nonneg (ga : GapAnalyzer) (a b : LearningNode) :
    0 ≤ GapAnalyzer.calculateGapScore ga a b := by
  unfold GapAnalyzer.calculateGapScore
  rw [jsMin_eq_min, jsMax_eq_max]
  exact le_min (by norm_num) (le_max_left _ _)

theorem calculateGapScore_le_100 (ga : GapAnalyzer) (a b : LearningNode) :
    GapAnalyzer.calculateGapScore ga a b ≤ 100 := by
  unfold GapAnalyzer.calculateGapScore
  rw [jsMin_eq_min]
  exact min_le_left _ _

theorem pathConfidenceLoop_le (pf : PathFinder) (a : LearningNode) (l : List LearningNode) :
    PathFinder.pathConfidenceLoop pf a l ≤ (l.length : ℚ) := by
  induction l generalizing a with
  | nil => simp [PathFinder.pathConfidenceLoop]
  | cons b rest ih =>
    have := ih b
    unfold PathFinder.pathConfidenceLoop
    simp only [List.length_cons]
    push_cast
    split_ifs <;> linarith

theorem pathConfidenceLoop_ge (pf : PathFinder) (a : LearningNode) (l : List LearningNode) :
    (l.length : ℚ) * (5/10) ≤ PathFinder.pathConfidenceLoop pf a l := by
  induction l generalizing a with
  | nil => simp [PathFinder.pathConfidenceLoop]
  | cons b rest ih =>
    have := ih b
    unfold PathFinder.pathConfidenceLoop
    simp only [List.length_cons]
    push_cast
    split_ifs <;> linarith

theorem calculatePathConfidence_nonneg (pf : PathFinder) (path : List LearningNode) :
    0 ≤ PathFinder.calculatePathConfidence pf path := by
  unfold PathFinder.calculatePathConfidence
  split_ifs with h
  · norm_num
  · match path with
    | [] => norm_num
    | a :: rest =>
      simp only
      split_ifs with hs
      · have h1 := pathConfidenceLoop_ge pf a rest
        have h2 : (0 : ℚ) < (rest.length : ℚ) := by exact_mod_cast hs
        have h3 : (0 : ℚ) ≤ PathFinder.pathConfidenceLoop pf a rest := by nlinarith
        exact div_nonneg h3 (le_of_lt h2)
      · norm_num

theorem calculatePathConfidence_le_one (pf : PathFinder) (path : List LearningNode) :
    PathFinder.calculatePathConfidence pf path ≤ 1 := by
  unfold PathFinder.calculatePathConfidence
  split_ifs with h
  · norm_num
  · match path with
    | [] => norm_num
    | a :: rest =>
      simp only
      split_ifs with hs
      · have h1 := pathConfidenceLoop_le pf a rest
        have h2 : (0 : ℚ) < (rest.length : ℚ) := by exact_mod_cast hs
        rw [div_le_one h2]
        exact h1
      · norm_num

theorem calculatePathConfidence_single (pf : PathFinder) (path : List LearningNode)
    (h : path.length ≤ 1) : PathFinder.calculatePathConfidence pf path = 0 := by
  unfold PathFinder.calculatePathConfidence
  rw [if_pos h]

theorem calculateConfidence_bounds (gapScore : ℚ) (missingCount : ℕ) (h0 : 0 ≤ gapScore) :
    0 ≤ GapAnalyzer.calculateConfidence gapScore missingCount
      ∧ GapAnalyzer.calculateConfidence gapScore missingCount ≤ 100 := by
  unfold GapAnalyzer.calculateConfidence
  rw [jsMax_eq_max, jsMax_eq_max]
  constructor
  · have h1 : (0 : ℚ) ≤ max 0 (100 - gapScore) := le_max_left _ _
    have h2 : (0 : ℚ) ≤ max 0 (100 - (missingCount : ℚ) * 10) := le_max_left _ _
    linarith
  · have h1 : max 0 (100 - gapScore) ≤ 100 := by
      apply max_le (by norm_num)
      linarith
    have h2 : max 0 (100 - (missingCount : ℚ) * 10) ≤ 100 := by
      apply max_le (by norm_num)
      have : (0 : ℚ) ≤ (missingCount : ℚ) := Nat.cast_nonneg _
      nlinarith
    linarith

/-! ## Concrete fixtures used by witnesses and counterexamples -/

/-- C1 fixture: an isolated starter node. -/
def exS : LearningNode :=
  { id := "s", difficulty := 1, prerequisites := [], dependencies := [], layer := .L1 }

/-- C1 fixture: a node one difficulty step above `exS`, listing it as
prerequisite. -/
def exM : LearningNode :=
  { id := "m", difficulty := 2, prerequisites := ["s"], dependencies := [], layer := .L1 }

/-- C1 fixture: the PathFinder over `{exS, exM}` with empty progress. -/
def pfC1 : PathFinder := PathFinder.create [exS, exM] []

/-- C2 fixture: a target whose single prerequisite `p` is unmastered. -/
def exN : LearningNode :=
  { id := "n", difficulty := 5, prerequisites := ["p"], dependencies := [], layer := .L2 }

/-- C2 fixture: the prerequisite node. -/
def exP : LearningNode :=
  { id := "p", difficulty := 1, prerequisites := [], dependencies := [], layer := .L1 }

/-- C2 fixture: the GapAnalyzer over `{exN, exP}` with empty progress. -/
def gaC2 : GapAnalyzer := GapAnalyzer.create [exN, exP] []

/-- C7 fixture: a hard current node (difficulty 10). -/
def exC7hard : LearningNode :=
  { id := "hard", difficulty := 10, prerequisites := [], dependencies := [], layer := .L3 }

/-- C7 fixture: an easy target node (difficulty 1). -/
def exC7easy : LearningNode :=
  { id := "easy", difficulty := 1, prerequisites := [], dependencies := [], layer := .L1 }

/-- **C4**: for every pair of nodes the composite gap score lies in
[0, 100]; every path confidence lies in [0, 1] and is 0 for single-node
(or empty) paths; and the analysis confidence lies in [0, 100] for every
gap score in [0, 100] and every missing-prerequisite count. -/
theorem C4_bounds :
    (∀ (ga : GapAnalyzer) (a b : LearningNode),
        0 ≤ GapAnalyzer.calculateGapScore ga a b ∧ GapAnalyzer.calculateGapScore ga a b ≤ 100)
    ∧ (∀ (pf : PathFinder) (path : List LearningNode),
        (0 ≤ PathFinder.calculatePathConfidence pf path
          ∧ PathFinder.calculatePathConfidence pf path ≤ 1)
          ∧ (path.length ≤ 1 → PathFinder.calculatePathConfidence pf path = 0))
    ∧ (∀ (gapScore : ℚ) (missingCount : ℕ), 0 ≤ gapScore → gapScore ≤ 100 →
        0 ≤ GapAnalyzer.calculateConfidence gapScore missingCount
          ∧ GapAnalyzer.calculateConfidence gapScore missingCount ≤ 100) := by
  refine ⟨fun ga a b => ⟨calculateGapScore_nonneg ga a b, calculateGapScore_le_100 ga a b⟩,
    fun pf path => ⟨⟨calculatePathConfidence_nonneg pf path,
      calculatePathConfidence_le_one pf path⟩, calculatePathConfidence_single pf path⟩,
    fun gapScore missingCount h0 _h1 => calculateConfidence_bounds gapScore missingCount h0⟩

/-- Witness for C4 at concrete inputs, discharging its hypotheses. -/
theorem C4_bounds_witness :
    PathFinder.calculatePathConfidence pfC1 [exS] = 0
    ∧ (0 ≤ GapAnalyzer.calculateConfidence 50 2
        ∧ GapAnalyzer.calculateConfidence 50 2 ≤ 100) :=
  ⟨(C4_bounds.2.1 pfC1 [exS]).2 (by norm_num),
   C4_bounds.2.2 50 2 (by norm_num) (by norm_num)⟩

/-- The difficulty-gap formula as claim C7 words it:
`clamp(0, 100, (target.difficulty − current.difficulty) / 10 × 100)`,
clamped on BOTH sides. -/
def specDifficultyGap (fromNode toNode : LearningNode) : ℚ :=
  jsMin 100 (jsMax 0 ((toNode.difficulty - fromNode.difficulty) / 10 * 100))

/-- Counterexample to C7: from difficulty 10 to difficulty 1 the code's
difficulty gap is −90, not the both-sides clamp 0 the claim states. -/
theorem C7_counterexample :
    GapAnalyzer.calculateDifficultyGap exC7hard exC7easy = -90
    ∧ specDifficultyGap exC7hard exC7easy = 0
    ∧ GapAnalyzer.calculateDifficultyGap exC7hard exC7easy
        ≠ specDifficultyGap exC7hard exC7easy := by
  norm_num [GapAnalyzer.calculateDifficultyGap, specDifficultyGap, exC7hard, exC7easy,
    jsMin, jsMax]

/-- **C7 (amended)**: `calculateDifficultyGap` is only clamped from above
(`Math.min(100, …)`); for an easier target it is strictly negative and
does offset the other weighted components, though the composite
`calculateGapScore` is itself clamped back into [0, 100]. -/
theorem C7_amended :
    (∀ a b : LearningNode, GapAnalyzer.calculateDifficultyGap a b ≤ 100)
    ∧ (∀ a b : LearningNode, b.difficulty < a.difficulty →
        GapAnalyzer.calculateDifficultyGap a b < 0)
    ∧ (∀ (ga : GapAnalyzer) (a b : LearningNode), 0 ≤ GapAnalyzer.calculateGapScore ga a b) := by
  refine ⟨fun a b => ?_, fun a b h => ?_, fun ga a b => calculateGapScore_nonneg ga a b⟩
  · unfold GapAnalyzer.calculateDifficultyGap
    rw [jsMin_eq_min]
    exact min_le_left _ _
  · unfold GapAnalyzer.calculateDifficultyGap
    rw [jsMin_eq_min]
    have he : (b.difficulty - a.difficulty) / 10 * 100 = (b.difficulty - a.difficulty) * 10 := by
      ring
    have hneg : (b.difficulty - a.difficulty) / 10 * 100 < 0 := by
      rw [he]
      nlinarith
    exact lt_of_le_of_lt (min_le_right _ _) hneg

/-- Witness for C7's amended statement at the concrete fixture. -/
theorem C7_amended_witness :
    GapAnalyzer.calculateDifficultyGap exC7hard exC7easy < 0 :=
  C7_amended.2.1 exC7hard exC7easy (by norm_num [exC7hard, exC7easy])

/-! ## C5: prerequisite-mastery monotonicity -/

theorem prereqTotalGap_mono (nodes : JsMap LearningNode) (prog prog' : JsMap ℚ) (p : String)
    (hlow : masteryOf prog p < HEURISTIC_WEIGHTS.MASTERY_THRESHOLD)
    (hhigh : HEURISTIC_WEIGHTS.MASTERY_THRESHOLD ≤ masteryOf prog' p)
    (hsame : ∀ q, q ≠ p → masteryOf prog' q = masteryOf prog q) (l : List String) :
    GapAnalyzer.prereqTotalGap ⟨nodes, prog'⟩ l ≤ GapAnalyzer.prereqTotalGap ⟨nodes, prog⟩ l := by
  induction l with
  | nil => simp [GapAnalyzer.prereqTotalGap]
  | cons q rest ih =>
    unfold GapAnalyzer.prereqTotalGap
    simp only
    by_cases hq : q = p
    · subst hq
      rw [if_pos hhigh, if_neg (not_le.mpr hlow)]
      have hm : masteryOf prog q ≤ 1 := by
        have := hlow
        unfold HEURISTIC_WEIGHTS.MASTERY_THRESHOLD at this
        linarith
      nlinarith
    · rw [hsame q hq]
      split_ifs <;> linarith

/-- **C5**: raising a single prerequisite's mastery from below the 0.8
threshold to at or above it (all other masteries unchanged) cannot
increase the composite gap score for a fixed (current, target) pair. -/
theorem C5_prereq_mastery_monotone (nodes : JsMap LearningNode) (prog prog' : JsMap ℚ)
    (cur t : LearningNode) (p : String)
    (_hp : p ∈ t.prerequisites)
    (hlow : masteryOf prog p < HEURISTIC_WEIGHTS.MASTERY_THRESHOLD)
    (hhigh : HEURISTIC_WEIGHTS.MASTERY_THRESHOLD ≤ masteryOf prog' p)
    (hsame : ∀ q, q ≠ p → masteryOf prog' q = masteryOf prog q) :
    GapAnalyzer.calculateGapScore ⟨nodes, prog'⟩ cur t
      ≤ GapAnalyzer.calculateGapScore ⟨nodes, prog⟩ cur t := by
  have hgap : GapAnalyzer.calculatePrerequisiteGap ⟨nodes, prog'⟩ t
      ≤ GapAnalyzer.calculatePrerequisiteGap ⟨nodes, prog⟩ t := by
    unfold GapAnalyzer.calculatePrerequisiteGap
    split_ifs with h
    · exact le_refl 0
    · have hlen : (0 : ℚ) < (t.prerequisites.length : ℚ) := by
        have h1 : t.prerequisites.length ≠ 0 := h
        have h2 : 0 < t.prerequisites.length := Nat.pos_of_ne_zero h1
        exact_mod_cast h2
      rw [div_eq_mul_inv, div_eq_mul_inv]
      exact mul_le_mul_of_nonneg_right
        (prereqTotalGap_mono nodes prog prog' p hlow hhigh hsame t.prerequisites)
        (inv_nonneg.mpr (le_of_lt hlen))
  unfold GapAnalyzer.calculateGapScore
  simp only
  rw [jsMin_eq_min, jsMin_eq_min, jsMax_eq_max, jsMax_eq_max]
  apply min_le_min (le_refl _)
  apply max_le_max (le_refl _)
  have hw : (0 : ℚ) < HEURISTIC_WEIGHTS.PREREQUISITE_GAP := by
    norm_num [HEURISTIC_WEIGHTS.PREREQUISITE_GAP]
  have := mul_le_mul_of_nonneg_right hgap (le_of_lt hw)
  linarith

/-- Witness for C5: mastering prerequisite `p` (0 → 1) at the concrete
two-node fixture. -/
theorem C5_witness :
    GapAnalyzer.calculateGapScore ⟨[("n", exN), ("p", exP)], [("p", 1)]⟩ exN exN
      ≤ GapAnalyzer.calculateGapScore ⟨[("n", exN), ("p", exP)], [("p", 0)]⟩ exN exN := by
  refine C5_prereq_mastery_monotone [("n", exN), ("p", exP)] [("p", 0)] [("p", 1)] exN exN "p"
    ?_ ?_ ?_ ?_
  · show "p" ∈ exN.prerequisites
    simp [exN]
  · norm_num [masteryOf, jsGet, HEURISTIC_WEIGHTS.MASTERY_THRESHOLD]
  · norm_num [masteryOf, jsGet, HEURISTIC_WEIGHTS.MASTERY_THRESHOLD]
  · intro q hq
    simp only [masteryOf, jsGet]
    rw [if_neg (fun h : "p" = q => hq h.symm), if_neg (fun h : "p" = q => hq h.symm)]

/-! ## C2: `current == target` does not force a zero gap -/

theorem gaC2_nodes_n : jsGet gaC2.nodes "n" = some exN := by
  simp [gaC2, GapAnalyzer.create, nodesMap, jsCopy, jsSet, jsGet, exN, exP]

theorem gaC2_current : GapAnalyzer.determineCurrentLevel gaC2 (some 5) = some exN := by
  simp only [gaC2, exN, exP, GapAnalyzer.create, nodesMap, jsCopy, jsSet, jsGet, jsValues,
    jsFilter, jsSortBy, jsInsert, jsAbs, masteryOf, GapAnalyzer.determineCurrentLevel,
    HEURISTIC_WEIGHTS.MASTERY_THRESHOLD, List.foldl, List.map]
  norm_num [jsSortBy, jsInsert]

theorem gaC2_gapScore : GapAnalyzer.calculateGapScore gaC2 exN exN = 40/3 := by
  simp only [GapAnalyzer.calculateGapScore, GapAnalyzer.calculateDifficultyGap,
    GapAnalyzer.calculatePrerequisiteGap, GapAnalyzer.prereqTotalGap,
    GapAnalyzer.calculateLayerGap, layerWeight, gaC2, exN, exP, GapAnalyzer.create,
    nodesMap, jsCopy, jsSet, jsGet, masteryOf, jsMin, jsMax,
    HEURISTIC_WEIGHTS.MASTERY_THRESHOLD, HEURISTIC_WEIGHTS.DIFFICULTY_GAP,
    HEURISTIC_WEIGHTS.PREREQUISITE_GAP, HEURISTIC_WEIGHTS.LAYER_GAP, List.foldl, List.length]
  norm_num

theorem gaC2_missing : GapAnalyzer.findMissingPrerequisites gaC2 exN = [exP] := by
  simp only [GapAnalyzer.findMissingPrerequisites, GapAnalyzer.missingPrereqList,
    gaC2, exN, exP, GapAnalyzer.create, nodesMap, jsCopy, jsSet, jsGet, masteryOf,
    jsSortBy, jsInsert, HEURISTIC_WEIGHTS.MASTERY_THRESHOLD, List.foldl, List.map]
  norm_num [jsSortBy, jsInsert]

theorem gaC2_path : GapAnalyzer.findOptimalPath gaC2 10 "n" "n" = some [exN] := by
  rw [GapAnalyzer.findOptimalPath, GapAnalyzer.gapSearchLoop]
  simp only [GapAnalyzer.findLowestFScore, GapAnalyzer.heuristic, GapAnalyzer.reconstructPath,
    gaC2, exN, exP, GapAnalyzer.create, nodesMap, jsCopy, jsSet, jsGet, jsAbs,
    List.foldl, List.map, List.length, List.isEmpty]
  norm_num
  rw [GapAnalyzer.reconstructGo]
  norm_num [gaC2, exN, exP, GapAnalyzer.create, nodesMap, jsCopy, jsSet, jsGet]
  rw [GapAnalyzer.reconstructGo]
  simp [exN]

/-- Counterexample to C2: on `{exN, exP}` with empty progress and hint 5
the resolved current node IS the target `exN`, yet `analyzeGap("n")`
reports gap score 40/3 ≠ 0 (the prerequisite component only looks at the
target) and missing prerequisites `[exP] ≠ []`. -/
theorem C2_counterexample :
    GapAnalyzer.determineCurrentLevel gaC2 (some 5) = some exN
    ∧ (GapAnalyzer.analyzeGap gaC2 10 "n" (some 5)).map
        (fun r => (r.gapScore, r.missingPrerequisites)) = some (40/3, [exP])
    ∧ ((40 : ℚ)/3 ≠ 0 ∧ ([exP] : List LearningNode) ≠ []) := by
  refine ⟨gaC2_current, ?_, by norm_num, by simp⟩
  rw [GapAnalyzer.analyzeGap, gaC2_nodes_n]
  simp only [gaC2_current, gaC2_gapScore, gaC2_missing]
  have hid : exN.id = "n" := rfl
  rw [hid, gaC2_path]
  simp

theorem prereqTotalGap_zero (ga : GapAnalyzer) (l : List String)
    (hsat : ∀ p ∈ l, HEURISTIC_WEIGHTS.MASTERY_THRESHOLD ≤ masteryOf ga.userProgress p) :
    GapAnalyzer.prereqTotalGap ga l = 0 := by
  induction l with
  | nil => simp [GapAnalyzer.prereqTotalGap]
  | cons q rest ih =>
    unfold GapAnalyzer.prereqTotalGap
    simp only
    rw [if_pos (hsat q (List.mem_cons_self q rest)),
      ih (fun p hp => hsat p (List.mem_cons_of_mem q hp))]
    norm_num

theorem missingPrereqList_nil (ga : GapAnalyzer) (l : List String)
    (hsat : ∀ p ∈ l, HEURISTIC_WEIGHTS.MASTERY_THRESHOLD ≤ masteryOf ga.userProgress p) :
    GapAnalyzer.missingPrereqList ga l = [] := by
  induction l with
  | nil => simp [GapAnalyzer.missingPrereqList]
  | cons q rest ih =>
    unfold GapAnalyzer.missingPrereqList
    simp only
    have hq := hsat q (List.mem_cons_self q rest)
    have hrest := ih (fun p hp => hsat p (List.mem_cons_of_mem q hp))
    cases jsGet ga.nodes q with
    | none => exact hrest
    | some pn =>
      simp only
      rw [if_neg (not_lt.mpr hq)]
      exact hrest

theorem calculateGapScore_self_zero (ga : GapAnalyzer) (t : LearningNode)
    (hsat : ∀ p ∈ t.prerequisites,
      HEURISTIC_WEIGHTS.MASTERY_THRESHOLD ≤ masteryOf ga.userProgress p) :
    GapAnalyzer.calculateGapScore ga t t = 0 := by
  have hd : GapAnalyzer.calculateDifficultyGap t t = 0 := by
    unfold GapAnalyzer.calculateDifficultyGap
    norm_num [jsMin]
  have hp : GapAnalyzer.calculatePrerequisiteGap ga t = 0 := by
    unfold GapAnalyzer.calculatePrerequisiteGap
    rw [prereqTotalGap_zero ga t.prerequisites hsat]
    split_ifs <;> norm_num
  have hl : GapAnalyzer.calculateLayerGap t t = 0 := by
    unfold GapAnalyzer.calculateLayerGap
    cases t.layer <;> simp [layerWeight]
  unfold GapAnalyzer.calculateGapScore
  rw [hd, hp, hl]
  norm_num [jsMin, jsMax]

/-- **C2 (amended)**: when the resolved current node equals the target
AND every prerequisite of the target is mastered at or above the 0.8
threshold (in particular when it has none), `analyzeGap` yields gap score
0 and an empty missing list.  (Without the mastery proviso the original
claim fails: the prerequisite component depends only on the target.) -/
theorem C2_amended (ga : GapAnalyzer) (fuel : ℕ) (targetNodeId : String) (hint : Option ℚ)
    (t : LearningNode) (r : GapAnalysisResult)
    (htarget : jsGet ga.nodes targetNodeId = some t)
    (hcur : GapAnalyzer.determineCurrentLevel ga hint = some t)
    (hsat : ∀ p ∈ t.prerequisites,
      HEURISTIC_WEIGHTS.MASTERY_THRESHOLD ≤ masteryOf ga.userProgress p)
    (hres : GapAnalyzer.analyzeGap ga fuel targetNodeId hint = some r) :
    r.gapScore = 0 ∧ r.missingPrerequisites = [] := by
  have hmiss : GapAnalyzer.findMissingPrerequisites ga t = [] := by
    unfold GapAnalyzer.findMissingPrerequisites
    rw [missingPrereqList_nil ga t.prerequisites hsat]
    simp [jsSortBy]
  unfold GapAnalyzer.analyzeGap at hres
  rw [htarget, hcur] at hres
  simp only at hres
  cases hpath : GapAnalyzer.findOptimalPath ga fuel t.id t.id with
  | none =>
    rw [hpath] at hres
    exact absurd hres (by simp)
  | some path =>
    rw [hpath] at hres
    simp only [Option.some.injEq] at hres
    rw [← hres]
    exact ⟨calculateGapScore_self_zero ga t hsat, by simp [hmiss]⟩

/-- C2 witness fixture: a single prerequisite-free node. -/
def gaC2w : GapAnalyzer := GapAnalyzer.create [exS] []

/-- The full `analyzeGap` result on the witness fixture. -/
def rC2w : GapAnalysisResult :=
  { targetNode := exS, gapScore := 0, missingPrerequisites := [], recommendedPath := [exS],
    estimatedTime := 15, confidence := 100 }

theorem gaC2w_target : jsGet gaC2w.nodes "s" = some exS := by
  simp [gaC2w, GapAnalyzer.create, nodesMap, jsCopy, jsSet, jsGet, exS]

theorem gaC2w_current : GapAnalyzer.determineCurrentLevel gaC2w (some 1) = some exS := by
  simp only [gaC2w, exS, GapAnalyzer.create, nodesMap, jsCopy, jsSet, jsGet, jsValues,
    jsFilter, jsSortBy, jsInsert, jsAbs, masteryOf, GapAnalyzer.determineCurrentLevel,
    HEURISTIC_WEIGHTS.MASTERY_THRESHOLD, List.foldl, List.map]
  norm_num [jsSortBy, jsInsert]

theorem gaC2w_res : GapAnalyzer.analyzeGap gaC2w 10 "s" (some 1) = some rC2w := by
  rw [GapAnalyzer.analyzeGap, gaC2w_target]
  simp only [gaC2w_current]
  have hid : exS.id = "s" := rfl
  have hpath : GapAnalyzer.findOptimalPath gaC2w 10 "s" "s" = some [exS] := by
    rw [GapAnalyzer.findOptimalPath, GapAnalyzer.gapSearchLoop]
    simp only [GapAnalyzer.findLowestFScore, GapAnalyzer.heuristic,
      GapAnalyzer.reconstructPath, gaC2w, exS, GapAnalyzer.create, nodesMap, jsCopy, jsSet,
      jsGet, jsAbs, List.foldl, List.map, List.length, List.isEmpty]
    norm_num
    rw [GapAnalyzer.reconstructGo]
    norm_num [gaC2w, exS, GapAnalyzer.create, nodesMap, jsCopy, jsSet, jsGet]
    rw [GapAnalyzer.reconstructGo]
    simp [exS]
  rw [hid, hpath]
  have hscore : GapAnalyzer.calculateGapScore gaC2w exS exS = 0 := by
    simp only [GapAnalyzer.calculateGapScore, GapAnalyzer.calculateDifficultyGap,
      GapAnalyzer.calculatePrerequisiteGap, GapAnalyzer.prereqTotalGap,
      GapAnalyzer.calculateLayerGap, layerWeight, gaC2w, exS, GapAnalyzer.create,
      nodesMap, jsCopy, jsSet, jsGet, masteryOf, jsMin, jsMax,
      HEURISTIC_WEIGHTS.MASTERY_THRESHOLD, HEURISTIC_WEIGHTS.DIFFICULTY_GAP,
      HEURISTIC_WEIGHTS.PREREQUISITE_GAP, HEURISTIC_WEIGHTS.LAYER_GAP, List.foldl,
      List.length]
    norm_num
  have hmiss : GapAnalyzer.findMissingPrerequisites gaC2w exS = [] := by
    simp [GapAnalyzer.findMissingPrerequisites, GapAnalyzer.missingPrereqList, exS, jsSortBy]
  rw [hscore, hmiss]
  simp only [rC2w]
  norm_num [GapAnalyzer.calculateEstimatedTime, GapAnalyzer.calculateConfidence, gaC2w, exS,
    GapAnalyzer.create, nodesMap, jsCopy, jsSet, jsGet, masteryOf, jsMax, List.foldl]

/-- Witness for C2's amended statement at the concrete one-node fixture. -/
theorem C2_amended_witness : rC2w.gapScore = 0 ∧ rC2w.missingPrerequisites = [] :=
  C2_amended gaC2w 10 "s" (some 1) exS rC2w gaC2w_target gaC2w_current
    (by intro p hp; simp [exS] at hp) gaC2w_res

/-! ## C10: `averageGapScore` is the unguarded `total / count` -/

theorem analyzeMultipleGapsGo_length (ga : GapAnalyzer) (fuel : ℕ) (hint : Option ℚ) :
    ∀ (l : List String) (res : List GapAnalysisDetail),
      GapAnalyzer.analyzeMultipleGapsGo ga fuel hint l = some res → res.length = l.length := by
  intro l
  induction l with
  | nil =>
    intro res h
    simp only [GapAnalyzer.analyzeMultipleGapsGo, Option.some.injEq] at h
    rw [← h]
    rfl
  | cons x rest ih =>
    intro res h
    unfold GapAnalyzer.analyzeMultipleGapsGo at h
    cases hx : GapAnalyzer.analyzeGap ga fuel x hint with
    | none => rw [hx] at h; exact absurd h (by simp)
    | some r =>
      rw [hx] at h
      simp only at h
      cases hrest : GapAnalyzer.analyzeMultipleGapsGo ga fuel hint rest with
      | none => rw [hrest] at h; exact absurd h (by simp)
      | some others =>
        rw [hrest] at h
        simp only [Option.some.injEq] at h
        rw [← h]
        simp [ih others hrest]

theorem analyzeMultipleGaps_length (ga : GapAnalyzer) (fuel : ℕ) (hint : Option ℚ)
    (ids : List String) (analyses : List GapAnalysisDetail)
    (h : GapAnalyzer.analyzeMultipleGaps ga fuel ids hint = some analyses) :
    analyses.length = ids.length := by
  unfold GapAnalyzer.analyzeMultipleGaps at h
  cases hgo : GapAnalyzer.analyzeMultipleGapsGo ga fuel hint ids with
  | none => rw [hgo] at h; exact absurd h (by simp)
  | some res =>
    rw [hgo] at h
    simp only [Option.map_some', Option.some.injEq] at h
    rw [← h, jsSortBy_length]
    exact analyzeMultipleGapsGo_length ga fuel hint ids res hgo

/-- **C10**: for a non-empty batch of resolvable targets,
`collectGapMetrics` reports `averageGapScore = totalGapScore / #targets`
— the division is written with no emptiness guard, so the non-empty
precondition is what keeps the denominator non-zero (JS would produce
`0/0 = NaN` on an empty batch). -/
theorem C10_average_is_total_over_count (ga : GapAnalyzer) (fuel : ℕ) (ids : List String)
    (m : GapMetrics) (hne : ids ≠ [])
    (hm : GapAnalyzer.collectGapMetrics ga fuel ids = some m) :
    m.averageGapScore = m.totalGapScore / (ids.length : ℚ) ∧ ((ids.length : ℚ) ≠ 0) := by
  constructor
  · unfold GapAnalyzer.collectGapMetrics at hm
    cases hma : GapAnalyzer.analyzeMultipleGaps ga fuel ids none with
    | none => rw [hma] at hm; exact absurd hm (by simp)
    | some analyses =>
      rw [hma] at hm
      simp only [Option.some.injEq] at hm
      have hlen := analyzeMultipleGaps_length ga fuel none ids analyses hma
      rw [← hm]
      simp only [hlen]
  · have : ids.length ≠ 0 := fun h => hne (List.length_eq_zero.mp h)
    exact_mod_cast this

/-- The single `analyzeMultipleGaps` detail on the C10 witness fixture. -/
def dC10w : GapAnalysisDetail :=
  { nodeId := "s", targetNodeId := "s", gapScore := 0, gapLevel := .low,
    priority := .immediate, missingPrerequisites := [], recommendedPath := [exS],
    estimatedTime := 15, timeBreakdown := (5, 9, 2) }

/-- The metrics record on the C10 witness fixture. -/
def mC10w : GapMetrics :=
  { totalGapScore := 0, averageGapScore := 0, gapDistribution := (1, 0, 0),
    mostCommonGaps := [("s", 0, 1)] }

theorem gaC2w_current_none : GapAnalyzer.determineCurrentLevel gaC2w none = some exS := by
  simp only [gaC2w, exS, GapAnalyzer.create, nodesMap, jsCopy, jsSet, jsGet, jsValues,
    jsFilter, jsSortBy, jsInsert, jsAbs, masteryOf, GapAnalyzer.determineCurrentLevel,
    HEURISTIC_WEIGHTS.MASTERY_THRESHOLD, List.foldl, List.map, List.isEmpty]
  norm_num

theorem gaC2w_res_none : GapAnalyzer.analyzeGap gaC2w 10 "s" none = some rC2w := by
  rw [GapAnalyzer.analyzeGap, gaC2w_target]
  simp only [gaC2w_current_none]
  have hid : exS.id = "s" := rfl
  have hpath : GapAnalyzer.findOptimalPath gaC2w 10 "s" "s" = some [exS] := by
    rw [GapAnalyzer.findOptimalPath, GapAnalyzer.gapSearchLoop]
    simp only [GapAnalyzer.findLowestFScore, GapAnalyzer.heuristic,
      GapAnalyzer.reconstructPath, gaC2w, exS, GapAnalyzer.create, nodesMap, jsCopy, jsSet,
      jsGet, jsAbs, List.foldl, List.map, List.length, List.isEmpty]
    norm_num
    rw [GapAnalyzer.reconstructGo]
    norm_num [gaC2w, exS, GapAnalyzer.create, nodesMap, jsCopy, jsSet, jsGet]
    rw [GapAnalyzer.reconstructGo]
    simp [exS]
  rw [hid, hpath]
  have hscore : GapAnalyzer.calculateGapScore gaC2w exS exS = 0 := by
    simp only [GapAnalyzer.calculateGapScore, GapAnalyzer.calculateDifficultyGap,
      GapAnalyzer.calculatePrerequisiteGap, GapAnalyzer.prereqTotalGap,
      GapAnalyzer.calculateLayerGap, layerWeight, gaC2w, exS, GapAnalyzer.create,
      nodesMap, jsCopy, jsSet, jsGet, masteryOf, jsMin, jsMax,
      HEURISTIC_WEIGHTS.MASTERY_THRESHOLD, HEURISTIC_WEIGHTS.DIFFICULTY_GAP,
      HEURISTIC_WEIGHTS.PREREQUISITE_GAP, HEURISTIC_WEIGHTS.LAYER_GAP, List.foldl,
      List.length]
    norm_num
  have hmiss : GapAnalyzer.findMissingPrerequisites gaC2w exS = [] := by
    simp [GapAnalyzer.findMissingPrerequisites, GapAnalyzer.missingPrereqList, exS, jsSortBy]
  rw [hscore, hmiss]
  simp only [rC2w]
  norm_num [GapAnalyzer.calculateEstimatedTime, GapAnalyzer.calculateConfidence, gaC2w, exS,
    GapAnalyzer.create, nodesMap, jsCopy, jsSet, jsGet, masteryOf, jsMax, List.foldl]

theorem gaC2w_metrics : GapAnalyzer.collectGapMetrics gaC2w 10 ["s"] = some mC10w := by
  have hdetail : GapAnalyzer.analyzeMultipleGapsGo gaC2w 10 none ["s"] = some [dC10w] := by
    unfold GapAnalyzer.analyzeMultipleGapsGo
    rw [gaC2w_res_none]
    unfold GapAnalyzer.analyzeMultipleGapsGo
    simp only [dC10w, rC2w, GapAnalyzer.getCurrentNodeId, gaC2w_current_none,
      GapAnalyzer.determineGapLevel, GapAnalyzer.determinePriority,
      GapAnalyzer.breakdownTime, GapAnalyzer.calculateEstimatedTime]
    norm_num [round_eq, exS, gaC2w, GapAnalyzer.create, nodesMap, jsCopy, jsSet, jsGet,
      masteryOf, List.foldl]
  have hmulti : GapAnalyzer.analyzeMultipleGaps gaC2w 10 ["s"] none = some [dC10w] := by
    unfold GapAnalyzer.analyzeMultipleGaps
    rw [hdetail]
    simp [jsSortBy, jsInsert]
  unfold GapAnalyzer.collectGapMetrics
  rw [hmulti]
  simp only [mC10w, dC10w, GapAnalyzer.gapCountsOf, GapAnalyzer.firstGapScoreFor,
    jsSet, jsGet, jsSortBy, jsInsert, List.foldl, List.map, List.take, List.length]
  norm_num

/-- Witness for C10 at the concrete singleton batch. -/
theorem C10_witness :
    mC10w.averageGapScore = mC10w.totalGapScore / ((["s"] : List String).length : ℚ)
    ∧ (((["s"] : List String).length : ℚ) ≠ 0) :=
  C10_average_is_total_over_count gaC2w 10 ["s"] mC10w (by simp) gaC2w_metrics

/-! ## C1: `findOptimalPath` throws on any relaxation -/

theorem pfC1_nodes_s : jsGet pfC1.nodes "s" = some exS := by
  simp [pfC1, PathFinder.create, nodesMap, jsCopy, jsSet, jsGet, exS, exM]

theorem pfC1_nodes_m : jsGet pfC1.nodes "m" = some exM := by
  simp [pfC1, PathFinder.create, nodesMap, jsCopy, jsSet, jsGet, exS, exM]

theorem pfC1_aStar_thrown :
    PathFinder.aStar pfC1 "s" "m" 20 (fun _ => true) = .thrown := by
  simp only [PathFinder.aStar, pfC1_nodes_s, pfC1_nodes_m]
  rw [PathFinder.aStarLoop]
  try simp only [PathFinder.aStarInitState, PathFinder.findLowestFScoreP, PathFinder.heuristic,
    PathFinder.getValidNeighbors, PathFinder.validPrereqNeighbors, PathFinder.getLayerDistance,
    pfC1, exS, exM, PathFinder.create, defaultHeuristicConfig, nodesMap, jsCopy, jsSet, jsGet,
    jsValues, jsFilter, jsAbs, jsIncludes, jsDelete, setAdd, masteryOf, PathNode.node,
    PathNode.fScore, PathNode.openFlag, List.foldl, List.map, List.length, List.isEmpty]
  try simp
  try norm_num
  try simp only [PathFinder.aStarInitState, PathFinder.findLowestFScoreP, PathFinder.heuristic,
    PathFinder.getValidNeighbors, PathFinder.validPrereqNeighbors, PathFinder.getLayerDistance,
    pfC1, exS, exM, PathFinder.create, defaultHeuristicConfig, nodesMap, jsCopy, jsSet, jsGet,
    jsValues, jsFilter, jsAbs, jsIncludes, jsDelete, setAdd, masteryOf, PathNode.node,
    PathNode.fScore, PathNode.openFlag, List.foldl, List.map, List.length, List.isEmpty]
  try simp
  try norm_num
  try simp only [PathFinder.aStarInitState, PathFinder.findLowestFScoreP, PathFinder.heuristic,
    PathFinder.getValidNeighbors, PathFinder.validPrereqNeighbors, PathFinder.getLayerDistance,
    pfC1, exS, exM, PathFinder.create, defaultHeuristicConfig, nodesMap, jsCopy, jsSet, jsGet,
    jsValues, jsFilter, jsAbs, jsIncludes, jsDelete, setAdd, masteryOf, PathNode.node,
    PathNode.fScore, PathNode.openFlag, List.foldl, List.map, List.length, List.isEmpty]
  try simp
  try norm_num

/-- **C1 (code bug)**: both endpoint ids resolve in the index, yet
`findOptimalPath('s','m')` throws a `TypeError` instead of returning a
`PathResult`: the `aStar` relaxation passes `current` — the `PathNode`
wrapper — to `calculateTransitionCost(fromNode: LearningNode, …)`, whose
`fromNode.prerequisites` is `undefined`, so `.includes(...)` throws the
moment the start node has any valid neighbor. -/
theorem C1_code_bug :
    jsGet pfC1.nodes "s" = some exS
    ∧ jsGet pfC1.nodes "m" = some exM
    ∧ PathFinder.findOptimalPath pfC1 "s" "m" {} (fun _ _ => true) = .thrown := by
  refine ⟨pfC1_nodes_s, pfC1_nodes_m, ?_⟩
  rw [PathFinder.findOptimalPath]
  have h20 : ({} : GapAnalysisOptions).maxPathLength = 20 := rfl
  rw [h20, pfC1_aStar_thrown]

/-! ## C3: the PathFinder fallback is `[start, target]`, not
`[start, …missing, target]` -/

/-- C3 fixture: target with an unmastered prerequisite `q`. -/
def exT3 : LearningNode :=
  { id := "t", difficulty := 5, prerequisites := ["q"], dependencies := [], layer := .L2 }

/-- C3 fixture: the prerequisite node. -/
def exQ3 : LearningNode :=
  { id := "q", difficulty := 2, prerequisites := [], dependencies := [], layer := .L1 }

/-- C3 fixture: PathFinder whose start node has no valid neighbors, so
the primary search fails and falls back. -/
def pfC3 : PathFinder := PathFinder.create [exS, exT3, exQ3] []

/-- The fallback path as claim C3 words it: the start node, the target's
missing prerequisites sorted ascending by difficulty, then the target. -/
def specFallbackPath (pf : PathFinder) (fromNodeId toNodeId : String) : List LearningNode :=
  match jsGet pf.nodes fromNodeId, jsGet pf.nodes toNodeId with
  | some startNode, some targetNode =>
    startNode ::
      GapAnalyzer.findMissingPrerequisites ⟨pf.nodes, pf.userProgress⟩ targetNode
      ++ [targetNode]
  | _, _ => []

theorem pfC3_nodes_s : jsGet pfC3.nodes "s" = some exS := by
  simp [pfC3, PathFinder.create, nodesMap, jsCopy, jsSet, jsGet, exS, exT3, exQ3]

theorem pfC3_nodes_t : jsGet pfC3.nodes "t" = some exT3 := by
  simp [pfC3, PathFinder.create, nodesMap, jsCopy, jsSet, jsGet, exS, exT3, exQ3]

theorem pfC3_loop_failed :
    PathFinder.aStarLoop pfC3 "t" 20 (fun _ => true) (20 + 2) 0
      (PathFinder.aStarInitState pfC3 "s" "t" exS) = .failed := by
  rw [PathFinder.aStarLoop]
  try simp only [PathFinder.aStarInitState, PathFinder.findLowestFScoreP, PathFinder.heuristic,
    PathFinder.getValidNeighbors, PathFinder.validPrereqNeighbors, PathFinder.getLayerDistance,
    pfC3, exS, exT3, exQ3, PathFinder.create, defaultHeuristicConfig, nodesMap, jsCopy, jsSet,
    jsGet, jsValues, jsFilter, jsAbs, jsIncludes, jsDelete, setAdd, masteryOf, PathNode.node,
    PathNode.fScore, PathNode.openFlag, List.foldl, List.map, List.length, List.isEmpty]
  try simp
  try norm_num
  try simp only [PathFinder.aStarInitState, PathFinder.findLowestFScoreP, PathFinder.heuristic,
    PathFinder.getValidNeighbors, PathFinder.validPrereqNeighbors, PathFinder.getLayerDistance,
    pfC3, exS, exT3, exQ3, PathFinder.create, defaultHeuristicConfig, nodesMap, jsCopy, jsSet,
    jsGet, jsValues, jsFilter, jsAbs, jsIncludes, jsDelete, setAdd, masteryOf, PathNode.node,
    PathNode.fScore, PathNode.openFlag, List.foldl, List.map, List.length, List.isEmpty]
  try simp
  try norm_num
  rw [PathFinder.aStarLoop]
  try simp only [PathFinder.aStarInitState, PathFinder.findLowestFScoreP, PathFinder.heuristic,
    PathFinder.getValidNeighbors, PathFinder.validPrereqNeighbors, PathFinder.getLayerDistance,
    pfC3, exS, exT3, exQ3, PathFinder.create, defaultHeuristicConfig, nodesMap, jsCopy, jsSet,
    jsGet, jsValues, jsFilter, jsAbs, jsIncludes, jsDelete, setAdd, masteryOf, PathNode.node,
    PathNode.fScore, PathNode.openFlag, List.foldl, List.map, List.length, List.isEmpty]
  try simp
  try norm_num

theorem pfC3_fallback :
    PathFinder.findOptimalPath pfC3 "s" "t" {} (fun _ _ => true)
      = .ok { path := [exS, exT3], totalCost := 100, totalTime := 120, confidence := 3/10,
              alternativePaths := [] } := by
  rw [PathFinder.findOptimalPath]
  have ha : PathFinder.aStar pfC3 "s" "t" 20 (fun _ => true)
      = .ok (PathFinder.buildFallbackPath pfC3 "s" "t") := by
    rw [PathFinder.aStar, pfC3_nodes_s, pfC3_nodes_t]
    simp only [pfC3_loop_failed]
  have h20 : ({} : GapAnalysisOptions).maxPathLength = 20 := rfl
  rw [h20, ha]
  have hfb : PathFinder.buildFallbackPath pfC3 "s" "t"
      = { path := [exS, exT3], totalCost := 100, totalTime := 120, confidence := 3/10,
          alternativePaths := [] } := by
    rw [PathFinder.buildFallbackPath, pfC3_nodes_s, pfC3_nodes_t]
  rw [hfb]
  try simp only [PathFinder.selectBestPathIdx, PathFinder.selectBestCmp, jsFilter, jsSortBy,
    jsInsert, List.enum, List.enumFrom, List.isEmpty, List.map, List.head?, List.get?]
  try simp
  try norm_num [jsFilter, jsSortBy, jsInsert, List.get?]
  try simp [jsFilter, jsSortBy, jsInsert, List.get?]
  try norm_num [jsFilter, jsSortBy, jsInsert, List.get?]

/-- Counterexample to C3: on `pfC3` the search fails and `findPath`
returns the two-node fallback `[s, t]` with confidence 0.3 — NOT the
claimed `[start, …missing prerequisites, target]` sequence, which here
is `[s, q, t]`. -/
theorem C3_counterexample :
    PathFinder.findOptimalPath pfC3 "s" "t" {} (fun _ _ => true)
      = .ok { path := [exS, exT3], totalCost := 100, totalTime := 120, confidence := 3/10,
              alternativePaths := [] }
    ∧ specFallbackPath pfC3 "s" "t" = [exS, exQ3, exT3]
    ∧ ([exS, exT3] : List LearningNode) ≠ [exS, exQ3, exT3] := by
  refine ⟨pfC3_fallback, ?_, by simp [exQ3, exT3]⟩
  rw [specFallbackPath, pfC3_nodes_s, pfC3_nodes_t]
  simp only [GapAnalyzer.findMissingPrerequisites, GapAnalyzer.missingPrereqList,
    jsSortBy, jsInsert, exT3, pfC3, PathFinder.create, nodesMap, jsCopy, jsSet, jsGet,
    masteryOf, HEURISTIC_WEIGHTS.MASTERY_THRESHOLD, List.foldl, exS, exQ3]
  try norm_num
  simp [jsSortBy, jsInsert]

/-- **C3 (amended)**: when the `aStar` loop exits without reaching the
goal, the PathFinder returns the fixed two-node fallback
`[startNode, targetNode]` with cost 100, time 120, confidence 0.3; the
claimed `[start, …missing prerequisites sorted by difficulty, target]`
shape belongs to the GapAnalyzer-side fallback `findMinimalPath`, whose
middle segment is indeed sorted ascending by difficulty. -/
theorem C3_amended :
    (∀ (pf : PathFinder) (fromNodeId toNodeId : String) (maxPathLength : ℕ)
        (timeOk : ℕ → Bool) (startNode endNode : LearningNode),
      jsGet pf.nodes fromNodeId = some startNode →
      jsGet pf.nodes toNodeId = some endNode →
      PathFinder.aStarLoop pf toNodeId maxPathLength timeOk (maxPathLength + 2) 0
          (PathFinder.aStarInitState pf fromNodeId toNodeId startNode) = .failed →
      PathFinder.aStar pf fromNodeId toNodeId maxPathLength timeOk
        = .ok { path := [startNode, endNode], totalCost := 100, totalTime := 120,
                confidence := 3/10, alternativePaths := [] })
    ∧ (∀ (ga : GapAnalyzer) (fromNodeId toNodeId : String) (targetNode : LearningNode),
      jsGet ga.nodes toNodeId = some targetNode →
      GapAnalyzer.findMinimalPath ga fromNodeId toNodeId
        = (match jsGet ga.nodes fromNodeId with
           | some fromNode => [fromNode]
           | none => []) ++ GapAnalyzer.findMissingPrerequisites ga targetNode ++ [targetNode]
      ∧ (GapAnalyzer.findMissingPrerequisites ga targetNode).Pairwise
          (fun a b => a.difficulty ≤ b.difficulty)) := by
  constructor
  · intro pf fromNodeId toNodeId maxPathLength timeOk startNode endNode hs ht hloop
    rw [PathFinder.aStar, hs, ht]
    simp only [hloop]
    rw [PathFinder.buildFallbackPath, hs, ht]
  · intro ga fromNodeId toNodeId targetNode ht
    constructor
    · rw [GapAnalyzer.findMinimalPath, ht]
    · unfold GapAnalyzer.findMissingPrerequisites
      exact jsSortBy_key_sorted (fun n : LearningNode => n.difficulty) _

/-- Witness for C3's amended statement at the concrete fixture. -/
theorem C3_amended_witness :
    PathFinder.aStar pfC3 "s" "t" 20 (fun _ => true)
      = .ok { path := [exS, exT3], totalCost := 100, totalTime := 120, confidence := 3/10,
              alternativePaths := [] }
    ∧ GapAnalyzer.findMinimalPath ⟨pfC3.nodes, pfC3.userProgress⟩ "s" "t"
        = (match jsGet (⟨pfC3.nodes, pfC3.userProgress⟩ : GapAnalyzer).nodes "s" with
           | some fromNode => [fromNode]
           | none => [])
          ++ GapAnalyzer.findMissingPrerequisites ⟨pfC3.nodes, pfC3.userProgress⟩ exT3
          ++ [exT3] :=
  ⟨C3_amended.1 pfC3 "s" "t" 20 (fun _ => true) exS exT3 pfC3_nodes_s pfC3_nodes_t
      pfC3_loop_failed,
   (C3_amended.2 ⟨pfC3.nodes, pfC3.userProgress⟩ "s" "t" exT3 pfC3_nodes_t).1⟩

/-! ## C6: termination of the searches -/

theorem mem_jsDelete {α : Type} {m : JsMap α} {k : String} {e : String × α} :
    e ∈ jsDelete m k ↔ e ∈ m ∧ e.1 ≠ k := by
  induction m with
  | nil => simp [jsDelete]
  | cons x rest ih =>
    by_cases h : x.1 = k
    · rw [jsDelete]
      rcases x with ⟨xk, xv⟩
      simp only at h
      rw [if_pos h]
      subst h
      rw [ih]
      constructor
      · rintro ⟨he, hne⟩
        exact ⟨List.mem_cons_of_mem _ he, hne⟩
      · rintro ⟨he, hne⟩
        rcases List.mem_cons.mp he with rfl | he
        · exact absurd rfl hne
        · exact ⟨he, hne⟩
    · rw [jsDelete]
      rcases x with ⟨xk, xv⟩
      simp only at h
      rw [if_neg h]
      constructor
      · intro he
        rcases List.mem_cons.mp he with rfl | he
        · exact ⟨List.mem_cons_self _ _, h⟩
        · exact ⟨List.mem_cons_of_mem _ (ih.mp he).1, (ih.mp he).2⟩
      · rintro ⟨he, hne⟩
        rcases List.mem_cons.mp he with rfl | he
        · exact List.mem_cons_self _ _
        · exact List.mem_cons_of_mem _ (ih.mpr ⟨he, hne⟩)

theorem jsIncludes_iff_mem {l : List String} {s : String} :
    jsIncludes l s = true ↔ s ∈ l := by
  induction l with
  | nil => simp [jsIncludes]
  | cons x rest ih =>
    rw [jsIncludes]
    by_cases h : x = s
    · subst h
      simp
    · rw [if_neg h, ih]
      constructor
      · exact fun hm => List.mem_cons_of_mem _ hm
      · intro hm
        rcases List.mem_cons.mp hm with rfl | hm
        · exact absurd rfl h
        · exact hm

theorem setAdd_length_of_not_mem {s : List String} {x : String} (h : x ∉ s) :
    (setAdd s x).length = s.length + 1 := by
  unfold setAdd
  rw [if_neg (by simp [jsIncludes_iff_mem, h])]
  simp

/-- The state invariant of the `aStar` loop: every open entry is keyed by
its node's id, and no open key is already closed. -/
def AStarInv (st : PathFinder.AStarState) : Prop :=
  (∀ e ∈ st.openSet, (e.2).node.id = e.1) ∧ (∀ e ∈ st.openSet, e.1 ∉ st.closedSet)

theorem findLowestFScoreP_mem (openSet : JsMap PathNode) (pn : PathNode)
    (h : PathFinder.findLowestFScoreP openSet = some pn) : ∃ k, (k, pn) ∈ openSet := by
  unfold PathFinder.findLowestFScoreP at h
  simp only at h
  have hfold : ∀ (l : List (String × PathNode)) (acc : Option PathNode) (b : PathNode),
      l.foldl (fun best e =>
        match best with
        | none => if e.2.openFlag = true then some e.2 else none
        | some bb =>
          if e.2.openFlag = true ∧ e.2.fScore < bb.fScore then some e.2 else some bb)
        acc = some b →
      acc = some b ∨ ∃ k, (k, b) ∈ l := by
    intro l
    induction l with
    | nil =>
      intro acc b hb
      exact Or.inl hb
    | cons e t ih =>
      intro acc b hb
      rw [List.foldl_cons] at hb
      rcases ih _ b hb with hacc | ⟨k, hk⟩
      · rcases acc with _ | bb
        · simp only at hacc
          split_ifs at hacc
          all_goals
            rcases Option.some.inj hacc with rfl
            exact Or.inr ⟨e.1, by simp⟩
        · simp only at hacc
          split_ifs at hacc
          all_goals
            first
              | exact Or.inl hacc
              | (rcases Option.some.inj hacc with rfl
                 exact Or.inr ⟨e.1, by simp⟩)
      · exact Or.inr ⟨k, List.mem_cons_of_mem _ hk⟩
  cases hbest : openSet.foldl (fun best e =>
      match best with
      | none => if e.2.openFlag = true then some e.2 else none
      | some bb =>
        if e.2.openFlag = true ∧ e.2.fScore < bb.fScore then some e.2 else some bb) none with
  | some n =>
    rw [hbest] at h
    rcases Option.some.inj h with rfl
    rcases hfold openSet none n hbest with habs | hmem
    · exact absurd habs (by simp)
    · exact hmem
  | none =>
    rw [hbest] at h
    simp only [Option.map_eq_some'] at h
    rcases h with ⟨e, he, rfl⟩
    rcases openSet with _ | ⟨x, rest⟩
    · exact absurd he (by simp)
    · rcases Option.some.inj he with rfl
      exact ⟨x.1, by simp⟩

theorem mem_setAdd {s : List String} {x y : String} :
    y ∈ setAdd s x ↔ y ∈ s ∨ y = x := by
  unfold setAdd
  by_cases h : jsIncludes s x = true
  · rw [if_pos h]
    have hx : x ∈ s := jsIncludes_iff_mem.mp h
    constructor
    · exact fun hy => Or.inl hy
    · rintro (hy | rfl)
      · exact hy
      · exact hx
  · rw [if_neg h]
    simp

theorem aStarLoop_no_fuelOut (pf : PathFinder) (toNodeId : String) (maxPathLength : ℕ)
    (timeOk : ℕ → Bool) :
    ∀ (fuel i : ℕ) (st : PathFinder.AStarState),
      AStarInv st → st.closedSet.length ≤ maxPathLength →
      maxPathLength + 2 ≤ st.closedSet.length + fuel →
      PathFinder.aStarLoop pf toNodeId maxPathLength timeOk fuel i st ≠ .fuelOut := by
  intro fuel
  induction fuel with
  | zero =>
    intro i st _ hle hge
    omega
  | succ n ih =>
    intro i st hinv hle hge
    rw [PathFinder.aStarLoop]
    by_cases hcond : (List.isEmpty st.openSet = true ∨ timeOk i = false)
    · rw [if_pos hcond]
      simp
    · rw [if_neg hcond, dif_neg (by omega : ¬(n + 1 = 0))]
      cases hfind : PathFinder.findLowestFScoreP st.openSet with
      | none => simp
      | some current =>
        simp only
        obtain ⟨k, hk⟩ := findLowestFScoreP_mem st.openSet current hfind
        have hid : current.node.id = k := hinv.1 (k, current) hk
        have hnotc : k ∉ st.closedSet := hinv.2 (k, current) hk
        by_cases hgoal : current.node.id = toNodeId
        · rw [if_pos hgoal]
          simp
        · rw [if_neg hgoal]
          by_cases hmax : maxPathLength ≤ st.closedSet.length
          · rw [if_pos hmax]
            simp
          · rw [if_neg hmax]
            by_cases hnb :
              List.isEmpty (PathFinder.getValidNeighbors pf current.node
                (setAdd st.closedSet current.node.id)) = true
            · rw [if_pos hnb]
              simp only [Nat.add_sub_cancel]
              apply ih
              · constructor
                · intro e he
                  exact hinv.1 e (mem_jsDelete.mp he).1
                · intro e he
                  rcases mem_jsDelete.mp he with ⟨hmem, hne⟩
                  intro habs
                  rcases mem_setAdd.mp habs with hin | heq
                  · exact hinv.2 e hmem hin
                  · exact (hne heq).elim
              · show (setAdd st.closedSet current.node.id).length ≤ maxPathLength
                rw [hid, setAdd_length_of_not_mem hnotc]
                omega
              · show maxPathLength + 2 ≤ (setAdd st.closedSet current.node.id).length + n
                rw [hid, setAdd_length_of_not_mem hnotc]
                omega
            · rw [if_neg hnb]
              simp

theorem jsGet_mem {α : Type} {m : JsMap α} {k : String} {v : α} (h : jsGet m k = some v) :
    (k, v) ∈ m := by
  induction m with
  | nil => exact absurd h (by simp [jsGet])
  | cons e rest ih =>
    rw [jsGet] at h
    rcases e with ⟨ek, ev⟩
    by_cases hek : ek = k
    · rw [if_pos hek] at h
      rcases Option.some.inj h with rfl
      subst hek
      exact List.mem_cons_self _ _
    · rw [if_neg hek] at h
      exact List.mem_cons_of_mem _ (ih h)

theorem mem_jsSet {α : Type} {m : JsMap α} {k : String} {v : α} {e : String × α}
    (h : e ∈ jsSet m k v) : e ∈ m ∨ e = (k, v) := by
  induction m with
  | nil =>
    rw [jsSet] at h
    rcases List.mem_singleton.mp h with rfl
    exact Or.inr rfl
  | cons x rest ih =>
    rw [jsSet] at h
    rcases x with ⟨xk, xv⟩
    by_cases hxk : xk = k
    · rw [if_pos hxk] at h
      rcases List.mem_cons.mp h with rfl | hm
      · exact Or.inr rfl
      · exact Or.inl (List.mem_cons_of_mem _ hm)
    · rw [if_neg hxk] at h
      rcases List.mem_cons.mp h with rfl | hm
      · exact Or.inl (List.mem_cons_self _ _)
      · rcases ih hm with hm' | rfl
        · exact Or.inl (List.mem_cons_of_mem _ hm')
        · exact Or.inr rfl

theorem nodesMap_key_id (nodes : List LearningNode) :
    ∀ e ∈ nodesMap nodes, (e.2).id = e.1 := by
  unfold nodesMap
  have hgen : ∀ (pairs : List (String × LearningNode)) (acc : JsMap LearningNode),
      (∀ p ∈ pairs, (p.2).id = p.1) → (∀ e ∈ acc, (e.2).id = e.1) →
      ∀ e ∈ pairs.foldl (fun acc e => jsSet acc e.1 e.2) acc, (e.2).id = e.1 := by
    intro pairs
    induction pairs with
    | nil =>
      intro acc _ hacc e he
      exact hacc e he
    | cons p rest ih =>
      intro acc hp hacc e he
      rw [List.foldl_cons] at he
      refine ih (jsSet acc p.1 p.2) (fun q hq => hp q (List.mem_cons_of_mem _ hq)) ?_ e he
      intro x hx
      rcases mem_jsSet hx with hx' | rfl
      · exact hacc x hx'
      · exact hp p (List.mem_cons_self _ _)
  intro e he
  refine hgen _ [] ?_ (by simp) e he
  intro p hp
  rcases List.mem_map.mp hp with ⟨n, _, rfl⟩
  rfl

theorem pathfinder_aStar_no_fuelOut (nodes : List LearningNode) (progress : JsMap ℚ)
    (config : HeuristicConfig) (fromNodeId toNodeId : String) (maxPathLength : ℕ)
    (timeOk : ℕ → Bool) :
    PathFinder.aStar (PathFinder.create nodes progress config) fromNodeId toNodeId
      maxPathLength timeOk ≠ .fuelOut := by
  rw [PathFinder.aStar]
  cases hs : jsGet (PathFinder.create nodes progress config).nodes fromNodeId with
  | none => simp
  | some startNode =>
    cases ht : jsGet (PathFinder.create nodes progress config).nodes toNodeId with
    | none => simp
    | some endNode =>
      simp only
      have hsid : startNode.id = fromNodeId := by
        have hm := jsGet_mem hs
        exact nodesMap_key_id nodes (fromNodeId, startNode) hm
      have hloop := aStarLoop_no_fuelOut (PathFinder.create nodes progress config) toNodeId
        maxPathLength timeOk (maxPathLength + 2) 0
        (PathFinder.aStarInitState (PathFinder.create nodes progress config) fromNodeId
          toNodeId startNode)
        (by
          constructor
          · intro e he
            rcases List.mem_singleton.mp he with rfl
            exact hsid
          · intro e he
            rcases List.mem_singleton.mp he with rfl
            simp [PathFinder.aStarInitState])
        (by simp [PathFinder.aStarInitState])
        (by simp [PathFinder.aStarInitState])
      cases hres : PathFinder.aStarLoop (PathFinder.create nodes progress config) toNodeId
          maxPathLength timeOk (maxPathLength + 2) 0
          (PathFinder.aStarInitState (PathFinder.create nodes progress config) fromNodeId
            toNodeId startNode) with
      | reached r => simp
      | failed => simp
      | thrown => simp
      | fuelOut => exact absurd hres hloop
/-! ## C6: termination of the two searches on cyclic prerequisites -/

/-- C6 fixture: node A of a two-node prerequisite cycle, fully mastered. -/
def cycA : LearningNode :=
  { id := "A", difficulty := 5, prerequisites := ["B"], dependencies := [], layer := .L2 }

/-- C6 fixture: node B of the cycle, fully mastered. -/
def cycB : LearningNode :=
  { id := "B", difficulty := 5, prerequisites := ["A"], dependencies := [], layer := .L2 }

/-- C6 fixture: an isolated goal node the search can never reach. -/
def cycG : LearningNode :=
  { id := "G", difficulty := 5, prerequisites := [], dependencies := [], layer := .L2 }

/-- C6 fixture: the analyzer over the cycle.  Mastery 1 makes every
transition cost 0, and a stored gScore of 0 is falsy, so the guard
`gScore.get(id) || Infinity` treats an already-visited node as unvisited
forever. -/
def gaC6 : GapAnalyzer := GapAnalyzer.create [cycA, cycB, cycG] [("A", 1), ("B", 1)]

/-- The initial search state of `findOptimalPath(gaC6, 'A', 'G')`. -/
def st0C6 : GapAnalyzer.GapSearchState :=
  { openSet := [("A", 0)], cameFrom := [], gScore := [("A", 0)], fScore := [("A", 0)] }

/-- The state after the first iteration (A popped, B relaxed). -/
def st1C6 : GapAnalyzer.GapSearchState :=
  { openSet := [("B", 0)], cameFrom := [("B", "A")], gScore := [("A", 0), ("B", 0)],
    fScore := [("A", 0), ("B", 0)] }

/-- One of the two states of the period-2 cycle (A open). -/
def stAC6 : GapAnalyzer.GapSearchState :=
  { openSet := [("A", 0)], cameFrom := [("B", "A"), ("A", "B")],
    gScore := [("A", 0), ("B", 0)], fScore := [("A", 0), ("B", 0)] }

/-- The other state of the period-2 cycle (B open). -/
def stBC6 : GapAnalyzer.GapSearchState :=
  { openSet := [("B", 0)], cameFrom := [("B", "A"), ("A", "B")],
    gScore := [("A", 0), ("B", 0)], fScore := [("A", 0), ("B", 0)] }

theorem C6_step0 (n : ℕ) :
    GapAnalyzer.gapSearchLoop gaC6 "G" (n + 1) st0C6
      = GapAnalyzer.gapSearchLoop gaC6 "G" n st1C6 := by
  rw [GapAnalyzer.gapSearchLoop]
  simp only [st0C6, st1C6, stAC6, stBC6, gaC6, cycA, cycB, cycG, GapAnalyzer.create, nodesMap,
    jsCopy, jsSet, jsGet, jsValues, jsFilter, jsIncludes, jsDelete, jsHas, jsAbs, masteryOf,
    GapAnalyzer.findLowestFScore, GapAnalyzer.getNeighbors, GapAnalyzer.lookupNodes,
    GapAnalyzer.heuristic, GapAnalyzer.calculateTransitionCost, GapAnalyzer.relaxNeighbors,
    GapAnalyzer.ltStoredOrInfinity, layerWeight, List.foldl, List.map, List.length,
    List.isEmpty, Nat.add_sub_cancel]
  norm_num [st0C6, st1C6, stAC6, stBC6, gaC6, cycA, cycB, cycG, GapAnalyzer.create, nodesMap,
    jsCopy, jsSet, jsGet, jsValues, jsFilter, jsIncludes, jsDelete, jsHas, jsAbs, masteryOf,
    GapAnalyzer.findLowestFScore, GapAnalyzer.getNeighbors, GapAnalyzer.lookupNodes,
    GapAnalyzer.heuristic, GapAnalyzer.calculateTransitionCost, GapAnalyzer.relaxNeighbors,
    GapAnalyzer.ltStoredOrInfinity, layerWeight, List.foldl, List.map, List.length,
    List.isEmpty, Nat.add_sub_cancel]
  try simp
  try norm_num [st0C6, st1C6, stAC6, stBC6, gaC6, cycA, cycB, cycG, GapAnalyzer.create, nodesMap,
    jsCopy, jsSet, jsGet, jsValues, jsFilter, jsIncludes, jsDelete, jsHas, jsAbs, masteryOf,
    GapAnalyzer.findLowestFScore, GapAnalyzer.getNeighbors, GapAnalyzer.lookupNodes,
    GapAnalyzer.heuristic, GapAnalyzer.calculateTransitionCost, GapAnalyzer.relaxNeighbors,
    GapAnalyzer.ltStoredOrInfinity, layerWeight, List.foldl, List.map, List.length,
    List.isEmpty, Nat.add_sub_cancel]
  try simp
  try norm_num [st0C6, st1C6, stAC6, stBC6, gaC6, cycA, cycB, cycG, GapAnalyzer.create, nodesMap,
    jsCopy, jsSet, jsGet, jsValues, jsFilter, jsIncludes, jsDelete, jsHas, jsAbs, masteryOf,
    GapAnalyzer.findLowestFScore, GapAnalyzer.getNeighbors, GapAnalyzer.lookupNodes,
    GapAnalyzer.heuristic, GapAnalyzer.calculateTransitionCost, GapAnalyzer.relaxNeighbors,
    GapAnalyzer.ltStoredOrInfinity, layerWeight, List.foldl, List.map, List.length,
    List.isEmpty, Nat.add_sub_cancel]
  try simp

theorem C6_step1 (n : ℕ) :
    GapAnalyzer.gapSearchLoop gaC6 "G" (n + 1) st1C6
      = GapAnalyzer.gapSearchLoop gaC6 "G" n stAC6 := by
  rw [GapAnalyzer.gapSearchLoop]
  simp only [st0C6, st1C6, stAC6, stBC6, gaC6, cycA, cycB, cycG, GapAnalyzer.create, nodesMap,
    jsCopy, jsSet, jsGet, jsValues, jsFilter, jsIncludes, jsDelete, jsHas, jsAbs, masteryOf,
    GapAnalyzer.findLowestFScore, GapAnalyzer.getNeighbors, GapAnalyzer.lookupNodes,
    GapAnalyzer.heuristic, GapAnalyzer.calculateTransitionCost, GapAnalyzer.relaxNeighbors,
    GapAnalyzer.ltStoredOrInfinity, layerWeight, List.foldl, List.map, List.length,
    List.isEmpty, Nat.add_sub_cancel]
  norm_num [st0C6, st1C6, stAC6, stBC6, gaC6, cycA, cycB, cycG, GapAnalyzer.create, nodesMap,
    jsCopy, jsSet, jsGet, jsValues, jsFilter, jsIncludes, jsDelete, jsHas, jsAbs, masteryOf,
    GapAnalyzer.findLowestFScore, GapAnalyzer.getNeighbors, GapAnalyzer.lookupNodes,
    GapAnalyzer.heuristic, GapAnalyzer.calculateTransitionCost, GapAnalyzer.relaxNeighbors,
    GapAnalyzer.ltStoredOrInfinity, layerWeight, List.foldl, List.map, List.length,
    List.isEmpty, Nat.add_sub_cancel]
  try simp
  try norm_num [st0C6, st1C6, stAC6, stBC6, gaC6, cycA, cycB, cycG, GapAnalyzer.create, nodesMap,
    jsCopy, jsSet, jsGet, jsValues, jsFilter, jsIncludes, jsDelete, jsHas, jsAbs, masteryOf,
    GapAnalyzer.findLowestFScore, GapAnalyzer.getNeighbors, GapAnalyzer.lookupNodes,
    GapAnalyzer.heuristic, GapAnalyzer.calculateTransitionCost, GapAnalyzer.relaxNeighbors,
    GapAnalyzer.ltStoredOrInfinity, layerWeight, List.foldl, List.map, List.length,
    List.isEmpty, Nat.add_sub_cancel]
  try simp
  try norm_num [st0C6, st1C6, stAC6, stBC6, gaC6, cycA, cycB, cycG, GapAnalyzer.create, nodesMap,
    jsCopy, jsSet, jsGet, jsValues, jsFilter, jsIncludes, jsDelete, jsHas, jsAbs, masteryOf,
    GapAnalyzer.findLowestFScore, GapAnalyzer.getNeighbors, GapAnalyzer.lookupNodes,
    GapAnalyzer.heuristic, GapAnalyzer.calculateTransitionCost, GapAnalyzer.relaxNeighbors,
    GapAnalyzer.ltStoredOrInfinity, layerWeight, List.foldl, List.map, List.length,
    List.isEmpty, Nat.add_sub_cancel]
  try simp

theorem C6_stepA (n : ℕ) :
    GapAnalyzer.gapSearchLoop gaC6 "G" (n + 1) stAC6
      = GapAnalyzer.gapSearchLoop gaC6 "G" n stBC6 := by
  rw [GapAnalyzer.gapSearchLoop]
  simp only [st0C6, st1C6, stAC6, stBC6, gaC6, cycA, cycB, cycG, GapAnalyzer.create, nodesMap,
    jsCopy, jsSet, jsGet, jsValues, jsFilter, jsIncludes, jsDelete, jsHas, jsAbs, masteryOf,
    GapAnalyzer.findLowestFScore, GapAnalyzer.getNeighbors, GapAnalyzer.lookupNodes,
    GapAnalyzer.heuristic, GapAnalyzer.calculateTransitionCost, GapAnalyzer.relaxNeighbors,
    GapAnalyzer.ltStoredOrInfinity, layerWeight, List.foldl, List.map, List.length,
    List.isEmpty, Nat.add_sub_cancel]
  norm_num [st0C6, st1C6, stAC6, stBC6, gaC6, cycA, cycB, cycG, GapAnalyzer.create, nodesMap,
    jsCopy, jsSet, jsGet, jsValues, jsFilter, jsIncludes, jsDelete, jsHas, jsAbs, masteryOf,
    GapAnalyzer.findLowestFScore, GapAnalyzer.getNeighbors, GapAnalyzer.lookupNodes,
    GapAnalyzer.heuristic, GapAnalyzer.calculateTransitionCost, GapAnalyzer.relaxNeighbors,
    GapAnalyzer.ltStoredOrInfinity, layerWeight, List.foldl, List.map, List.length,
    List.isEmpty, Nat.add_sub_cancel]
  try simp
  try norm_num [st0C6, st1C6, stAC6, stBC6, gaC6, cycA, cycB, cycG, GapAnalyzer.create, nodesMap,
    jsCopy, jsSet, jsGet, jsValues, jsFilter, jsIncludes, jsDelete, jsHas, jsAbs, masteryOf,
    GapAnalyzer.findLowestFScore, GapAnalyzer.getNeighbors, GapAnalyzer.lookupNodes,
    GapAnalyzer.heuristic, GapAnalyzer.calculateTransitionCost, GapAnalyzer.relaxNeighbors,
    GapAnalyzer.ltStoredOrInfinity, layerWeight, List.foldl, List.map, List.length,
    List.isEmpty, Nat.add_sub_cancel]
  try simp
  try norm_num [st0C6, st1C6, stAC6, stBC6, gaC6, cycA, cycB, cycG, GapAnalyzer.create, nodesMap,
    jsCopy, jsSet, jsGet, jsValues, jsFilter, jsIncludes, jsDelete, jsHas, jsAbs, masteryOf,
    GapAnalyzer.findLowestFScore, GapAnalyzer.getNeighbors, GapAnalyzer.lookupNodes,
    GapAnalyzer.heuristic, GapAnalyzer.calculateTransitionCost, GapAnalyzer.relaxNeighbors,
    GapAnalyzer.ltStoredOrInfinity, layerWeight, List.foldl, List.map, List.length,
    List.isEmpty, Nat.add_sub_cancel]
  try simp

theorem C6_stepB (n : ℕ) :
    GapAnalyzer.gapSearchLoop gaC6 "G" (n + 1) stBC6
      = GapAnalyzer.gapSearchLoop gaC6 "G" n stAC6 := by
  rw [GapAnalyzer.gapSearchLoop]
  simp only [st0C6, st1C6, stAC6, stBC6, gaC6, cycA, cycB, cycG, GapAnalyzer.create, nodesMap,
    jsCopy, jsSet, jsGet, jsValues, jsFilter, jsIncludes, jsDelete, jsHas, jsAbs, masteryOf,
    GapAnalyzer.findLowestFScore, GapAnalyzer.getNeighbors, GapAnalyzer.lookupNodes,
    GapAnalyzer.heuristic, GapAnalyzer.calculateTransitionCost, GapAnalyzer.relaxNeighbors,
    GapAnalyzer.ltStoredOrInfinity, layerWeight, List.foldl, List.map, List.length,
    List.isEmpty, Nat.add_sub_cancel]
  norm_num [st0C6, st1C6, stAC6, stBC6, gaC6, cycA, cycB, cycG, GapAnalyzer.create, nodesMap,
    jsCopy, jsSet, jsGet, jsValues, jsFilter, jsIncludes, jsDelete, jsHas, jsAbs, masteryOf,
    GapAnalyzer.findLowestFScore, GapAnalyzer.getNeighbors, GapAnalyzer.lookupNodes,
    GapAnalyzer.heuristic, GapAnalyzer.calculateTransitionCost, GapAnalyzer.relaxNeighbors,
    GapAnalyzer.ltStoredOrInfinity, layerWeight, List.foldl, List.map, List.length,
    List.isEmpty, Nat.add_sub_cancel]
  try simp
  try norm_num [st0C6, st1C6, stAC6, stBC6, gaC6, cycA, cycB, cycG, GapAnalyzer.create, nodesMap,
    jsCopy, jsSet, jsGet, jsValues, jsFilter, jsIncludes, jsDelete, jsHas, jsAbs, masteryOf,
    GapAnalyzer.findLowestFScore, GapAnalyzer.getNeighbors, GapAnalyzer.lookupNodes,
    GapAnalyzer.heuristic, GapAnalyzer.calculateTransitionCost, GapAnalyzer.relaxNeighbors,
    GapAnalyzer.ltStoredOrInfinity, layerWeight, List.foldl, List.map, List.length,
    List.isEmpty, Nat.add_sub_cancel]
  try simp
  try norm_num [st0C6, st1C6, stAC6, stBC6, gaC6, cycA, cycB, cycG, GapAnalyzer.create, nodesMap,
    jsCopy, jsSet, jsGet, jsValues, jsFilter, jsIncludes, jsDelete, jsHas, jsAbs, masteryOf,
    GapAnalyzer.findLowestFScore, GapAnalyzer.getNeighbors, GapAnalyzer.lookupNodes,
    GapAnalyzer.heuristic, GapAnalyzer.calculateTransitionCost, GapAnalyzer.relaxNeighbors,
    GapAnalyzer.ltStoredOrInfinity, layerWeight, List.foldl, List.map, List.length,
    List.isEmpty, Nat.add_sub_cancel]
  try simp

theorem C6_cycle (n : ℕ) :
    GapAnalyzer.gapSearchLoop gaC6 "G" n stAC6 = .fuelOut
      ∧ GapAnalyzer.gapSearchLoop gaC6 "G" n stBC6 = .fuelOut := by
  induction n with
  | zero =>
    constructor <;> (rw [GapAnalyzer.gapSearchLoop]; simp [stAC6, stBC6])
  | succ m ih =>
    exact ⟨by rw [C6_stepA m]; exact ih.2, by rw [C6_stepB m]; exact ih.1⟩

theorem C6_loop_st0 (fuel : ℕ) :
    GapAnalyzer.gapSearchLoop gaC6 "G" fuel st0C6 = .fuelOut := by
  match fuel with
  | 0 => rw [GapAnalyzer.gapSearchLoop]; simp [st0C6]
  | 1 => rw [C6_step0 0, GapAnalyzer.gapSearchLoop]; simp [st1C6]
  | (m + 2) => rw [C6_step0 (m + 1), C6_step1 m]; exact (C6_cycle m).1

theorem gaC6_h : GapAnalyzer.heuristic gaC6 "A" "G" = 0 := by
  simp only [GapAnalyzer.heuristic, gaC6, cycA, cycB, cycG, GapAnalyzer.create, nodesMap,
    jsCopy, jsSet, jsGet, jsAbs]
  simp
  try norm_num

theorem C6_gap_search_diverges (fuel : ℕ) :
    GapAnalyzer.findOptimalPath gaC6 fuel "A" "G" = none := by
  simp only [GapAnalyzer.findOptimalPath, gaC6_h]
  have hst : GapAnalyzer.GapSearchState.mk [("A", (0 : ℚ))] [] [("A", 0)] [("A", 0)]
      = st0C6 := rfl
  rw [hst, C6_loop_st0 fuel]

/-- **C6 (code bug)**: the claim holds for the PathFinder A* (its closed
set plus the `maxPathLength` cutoff bound the loop, so the search can
never exhaust `maxPathLength + 2` iterations), but fails for the
GapAnalyzer internal search: that loop has no closed set, and on the
cyclic fixture `gaC6` (A requires B, B requires A, both fully mastered,
searching toward the isolated goal G) the loop revisits A and B forever —
`gapSearchLoop` exhausts EVERY fuel bound, i.e. the JS `while` loop never
terminates, so `findOptimalPath` never returns. -/
theorem C6_termination_code_bug :
    (∀ (nodes : List LearningNode) (progress : JsMap ℚ) (config : HeuristicConfig)
        (fromNodeId toNodeId : String) (maxPathLength : ℕ) (timeOk : ℕ → Bool),
      PathFinder.aStar (PathFinder.create nodes progress config) fromNodeId toNodeId
          maxPathLength timeOk ≠ .fuelOut)
    ∧ (∀ fuel : ℕ, GapAnalyzer.findOptimalPath gaC6 fuel "A" "G" = none) :=
  ⟨fun nodes progress config fromNodeId toNodeId maxPathLength timeOk =>
      pathfinder_aStar_no_fuelOut nodes progress config fromNodeId toNodeId maxPathLength
        timeOk,
    C6_gap_search_diverges⟩

/-! ## C8: the via-intermediate candidate selection -/

/-- The candidate selection as the claim words it: the 3 non-endpoint
nodes minimizing `heuristic(from,c) + heuristic(c,to)`, with NO
suitability filter.  Stated from the spec, for comparison with the
code's `viaIntermediateCandidates`. -/
def specViaIntermediateCandidates (pf : PathFinder) (fromNodeId toNodeId : String) :
    List LearningNode :=
  (jsSortBy
      (fun a b =>
        (PathFinder.heuristic pf fromNodeId a.id + PathFinder.heuristic pf a.id toNodeId)
          - (PathFinder.heuristic pf fromNodeId b.id + PathFinder.heuristic pf b.id toNodeId))
      (jsFilter (fun node => node.id ≠ fromNodeId ∧ node.id ≠ toNodeId)
        (jsValues pf.nodes))).take 3

def fC8 : LearningNode :=
  { id := "f", difficulty := 1, prerequisites := [], dependencies := [], layer := .L1 }

def tC8 : LearningNode :=
  { id := "t", difficulty := 2, prerequisites := [], dependencies := [], layer := .L1 }

def c1C8 : LearningNode :=
  { id := "c1", difficulty := 1, prerequisites := [], dependencies := [], layer := .L1 }

def c2C8 : LearningNode :=
  { id := "c2", difficulty := 2, prerequisites := [], dependencies := [], layer := .L1 }

def c3C8 : LearningNode :=
  { id := "c3", difficulty := 3, prerequisites := [], dependencies := [], layer := .L1 }

def pf8 : PathFinder := PathFinder.create [fC8, tC8, c1C8, c2C8, c3C8] []

/-- Counterexample to C8: on `pf8` (five nodes, no node called `start`,
every mastery 0) no node passes `isSuitableIntermediate` — the filter
compares against `heuristic('start', c)`, which is 0 because no node has
the literal id `start`, and on this fixture every node's heuristic
towards the target is nonnegative (with all masteries 0 the mastery
bonus vanishes, leaving `|Δdifficulty| + layer distance ≥ 0`), never
`< 0` — so the code selects NO candidates and the strategy returns
`none`, while the claim's selection picks the 3 non-endpoint
minimizers. -/
theorem C8_counterexample :
    PathFinder.viaIntermediateCandidates pf8 "f" "t" tC8 = []
    ∧ specViaIntermediateCandidates pf8 "f" "t" = [c1C8, c2C8, c3C8]
    ∧ PathFinder.findViaIntermediate pf8 "f" "t" 20 (fun _ _ => true) = none
    ∧ ([] : List LearningNode) ≠ [c1C8, c2C8, c3C8] := by
  refine ⟨?_, ?_, ?_, by simp⟩ <;>
  · simp only [PathFinder.viaIntermediateCandidates, specViaIntermediateCandidates,
      PathFinder.isSuitableIntermediate, PathFinder.heuristic, PathFinder.getLayerDistance,
      PathFinder.findViaIntermediate, PathFinder.viaIntermediateGo, pf8, fC8, tC8, c1C8,
      c2C8, c3C8, PathFinder.create, defaultHeuristicConfig, nodesMap, jsCopy, jsSet,
      jsGet, jsValues, jsFilter, jsSortBy, jsInsert, jsAbs, masteryOf, List.foldl,
      List.map, List.take]
    try norm_num [PathFinder.viaIntermediateCandidates, specViaIntermediateCandidates,
      PathFinder.isSuitableIntermediate, PathFinder.heuristic, PathFinder.getLayerDistance,
      PathFinder.findViaIntermediate, PathFinder.viaIntermediateGo, pf8, fC8, tC8, c1C8,
      c2C8, c3C8, PathFinder.create, defaultHeuristicConfig, nodesMap, jsCopy, jsSet,
      jsGet, jsValues, jsFilter, jsSortBy, jsInsert, jsAbs, masteryOf, List.foldl,
      List.map, List.take]
    try simp
    try norm_num [PathFinder.viaIntermediateCandidates, specViaIntermediateCandidates,
      PathFinder.isSuitableIntermediate, PathFinder.heuristic, PathFinder.getLayerDistance,
      PathFinder.findViaIntermediate, PathFinder.viaIntermediateGo, pf8, fC8, tC8, c1C8,
      c2C8, c3C8, PathFinder.create, defaultHeuristicConfig, nodesMap, jsCopy, jsSet,
      jsGet, jsValues, jsFilter, jsSortBy, jsInsert, jsAbs, masteryOf, List.foldl,
      List.map, List.take]
    try simp

/-- **C8 (amended)**: the via-intermediate strategy selects at most 3
candidates, each a non-endpoint node of the index that additionally
passes `isSuitableIntermediate` (its heuristic towards the target must be
strictly below `heuristic('start', node)`, where `'start'` is a literal
id); among such nodes the selected ones minimize
`heuristic(from,c) + heuristic(c,to)` (every unselected suitable node
scores at least as high); when both half-budget A* runs of the first
candidate return results, the strategy returns their concatenation
`r1.path ++ r2.path.slice(1)` with summed cost and time and averaged
confidence; and when no node has the literal id `start`, a node passes
the filter exactly when its heuristic towards the target is strictly
negative — which the mastery bonus can make happen (a mastered node
aimed at an unmastered target of equal difficulty and layer scores
−masteryBonus). -/
theorem C8_amended (pf : PathFinder) (fromNodeId toNodeId : String)
    (targetNode : LearningNode) (maxPathLength : ℕ) (timeOks : ℕ → ℕ → Bool)
    (htarget : jsGet pf.nodes toNodeId = some targetNode) :
    (PathFinder.viaIntermediateCandidates pf fromNodeId toNodeId targetNode).length ≤ 3
    ∧ (∀ c ∈ PathFinder.viaIntermediateCandidates pf fromNodeId toNodeId targetNode,
        c ∈ jsValues pf.nodes ∧ c.id ≠ fromNodeId ∧ c.id ≠ toNodeId ∧
        PathFinder.isSuitableIntermediate pf c targetNode = true)
    ∧ (∀ c ∈ PathFinder.viaIntermediateCandidates pf fromNodeId toNodeId targetNode,
        ∀ x ∈ jsValues pf.nodes, x.id ≠ fromNodeId → x.id ≠ toNodeId →
        PathFinder.isSuitableIntermediate pf x targetNode = true →
        x ∉ PathFinder.viaIntermediateCandidates pf fromNodeId toNodeId targetNode →
        PathFinder.heuristic pf fromNodeId c.id + PathFinder.heuristic pf c.id toNodeId
          ≤ PathFinder.heuristic pf fromNodeId x.id + PathFinder.heuristic pf x.id toNodeId)
    ∧ (∀ c rest r1 r2,
        PathFinder.viaIntermediateCandidates pf fromNodeId toNodeId targetNode = c :: rest →
        PathFinder.aStar pf fromNodeId c.id maxPathLength (timeOks 0) = .ok r1 →
        PathFinder.aStar pf c.id toNodeId maxPathLength (timeOks 1) = .ok r2 →
        PathFinder.findViaIntermediate pf fromNodeId toNodeId maxPathLength timeOks
          = some { path := r1.path ++ r2.path.tail
                   totalCost := r1.totalCost + r2.totalCost
                   totalTime := r1.totalTime + r2.totalTime
                   confidence := (r1.confidence + r2.confidence) / 2
                   alternativePaths := [] })
    ∧ (jsGet pf.nodes "start" = none →
        ∀ c : LearningNode,
          (PathFinder.isSuitableIntermediate pf c targetNode = true
            ↔ PathFinder.heuristic pf c.id targetNode.id < 0)) := by
  refine ⟨?_, ?_, ?_, ?_, ?_⟩
  · rw [PathFinder.viaIntermediateCandidates, List.length_take]
    exact min_le_left _ _
  · intro c hc
    have hs := List.take_subset 3 _ hc
    rw [mem_jsSortBy, mem_jsFilter] at hs
    exact ⟨hs.1, hs.2.1, hs.2.2.1, hs.2.2.2⟩
  · intro c hc x hx hxf hxt hxs hxnot
    have hsorted :
        (jsSortBy
          (fun a b =>
            (PathFinder.heuristic pf fromNodeId a.id + PathFinder.heuristic pf a.id toNodeId)
              - (PathFinder.heuristic pf fromNodeId b.id
                  + PathFinder.heuristic pf b.id toNodeId))
          (jsFilter
            (fun node => node.id ≠ fromNodeId ∧ node.id ≠ toNodeId ∧
              PathFinder.isSuitableIntermediate pf node targetNode = true)
            (jsValues pf.nodes))).Pairwise
          (fun a b =>
            PathFinder.heuristic pf fromNodeId a.id + PathFinder.heuristic pf a.id toNodeId
              ≤ PathFinder.heuristic pf fromNodeId b.id
                  + PathFinder.heuristic pf b.id toNodeId) :=
      jsSortBy_key_sorted
        (fun c : LearningNode => PathFinder.heuristic pf fromNodeId c.id
          + PathFinder.heuristic pf c.id toNodeId) _
    set s := jsSortBy
      (fun a b =>
        (PathFinder.heuristic pf fromNodeId a.id + PathFinder.heuristic pf a.id toNodeId)
          - (PathFinder.heuristic pf fromNodeId b.id
              + PathFinder.heuristic pf b.id toNodeId))
      (jsFilter
        (fun node => node.id ≠ fromNodeId ∧ node.id ≠ toNodeId ∧
          PathFinder.isSuitableIntermediate pf node targetNode = true)
        (jsValues pf.nodes)) with hsdef
    have hxs' : x ∈ s := by
      rw [hsdef, mem_jsSortBy, mem_jsFilter]
      exact ⟨hx, hxf, hxt, hxs⟩
    have hsplit : s.take 3 ++ s.drop 3 = s := List.take_append_drop 3 s
    have hcand_eq : PathFinder.viaIntermediateCandidates pf fromNodeId toNodeId targetNode
        = s.take 3 := by
      rw [PathFinder.viaIntermediateCandidates, hsdef]
    have hx_drop : x ∈ s.drop 3 := by
      rcases List.mem_append.mp (hsplit ▸ hxs') with h | h
      · exact absurd (hcand_eq ▸ h) hxnot
      · exact h
    have hsorted' := hsplit ▸ hsorted
    have := (List.pairwise_append.mp hsorted').2.2
    exact this c (hcand_eq ▸ hc) x hx_drop
  · intro c rest r1 r2 hcand h1 h2
    rw [PathFinder.findViaIntermediate, htarget]
    simp only [hcand]
    rw [PathFinder.viaIntermediateGo]
    simp only [Nat.mul_zero]
    rw [h1, h2]
  · intro hstart c
    have h0 : PathFinder.heuristic pf "start" c.id = 0 := by
      rw [PathFinder.heuristic, hstart]
    simp only [PathFinder.isSuitableIntermediate, h0]
    split_ifs with h
    · simp [h]
    · simp [h]

def fC8w : LearningNode :=
  { id := "f", difficulty := 5, prerequisites := [], dependencies := [], layer := .L1 }

def tC8w : LearningNode :=
  { id := "t", difficulty := 5, prerequisites := [], dependencies := [], layer := .L1 }

def cC8w : LearningNode :=
  { id := "c", difficulty := 5, prerequisites := [], dependencies := [], layer := .L1 }

def startC8w : LearningNode :=
  { id := "start", difficulty := 1, prerequisites := [], dependencies := [], layer := .L1 }

def pf8w : PathFinder := PathFinder.create [fC8w, tC8w, cC8w, startC8w] []

theorem pf8w_target : jsGet pf8w.nodes "t" = some tC8w := by
  simp [pf8w, fC8w, tC8w, cC8w, startC8w, PathFinder.create, nodesMap, jsCopy, jsSet, jsGet]

theorem pf8w_cand : PathFinder.viaIntermediateCandidates pf8w "f" "t" tC8w = [cC8w] := by
  simp only [PathFinder.viaIntermediateCandidates, PathFinder.isSuitableIntermediate,
    PathFinder.heuristic, PathFinder.getLayerDistance, pf8w, fC8w, tC8w, cC8w, startC8w,
    PathFinder.create, defaultHeuristicConfig, nodesMap, jsCopy, jsSet, jsGet, jsValues,
    jsFilter, jsSortBy, jsInsert, jsAbs, masteryOf, List.foldl, List.map, List.take]
  try norm_num [jsSortBy, jsInsert, List.take]
  try simp
  try norm_num [jsSortBy, jsInsert, List.take]
  try simp

/-- The fallback result of the half-budget run from→c on the witness
fixture (the all-false wall clock fails the first loop check). -/
def r1C8w : PathResult :=
  { path := [fC8w, cC8w], totalCost := 100, totalTime := 120, confidence := 3/10,
    alternativePaths := [] }

/-- The fallback result of the half-budget run c→to on the witness
fixture. -/
def r2C8w : PathResult :=
  { path := [cC8w, tC8w], totalCost := 100, totalTime := 120, confidence := 3/10,
    alternativePaths := [] }

theorem pf8w_aStar1 :
    PathFinder.aStar pf8w "f" cC8w.id 20 (fun _ => false) = .ok r1C8w := by
  rw [PathFinder.aStar]
  simp only [pf8w, fC8w, tC8w, cC8w, startC8w, PathFinder.create, nodesMap, jsCopy, jsSet,
    jsGet]
  try simp
  rw [PathFinder.aStarLoop]
  simp [PathFinder.buildFallbackPath, r1C8w, pf8w, fC8w, tC8w, cC8w, startC8w,
    PathFinder.create, nodesMap, jsCopy, jsSet, jsGet]

theorem pf8w_aStar2 :
    PathFinder.aStar pf8w cC8w.id "t" 20 (fun _ => false) = .ok r2C8w := by
  rw [PathFinder.aStar]
  simp only [pf8w, fC8w, tC8w, cC8w, startC8w, PathFinder.create, nodesMap, jsCopy, jsSet,
    jsGet]
  try simp
  rw [PathFinder.aStarLoop]
  simp [PathFinder.buildFallbackPath, r2C8w, pf8w, fC8w, tC8w, cC8w, startC8w,
    PathFinder.create, nodesMap, jsCopy, jsSet, jsGet]

/-- C8 witness fixture without a `start` node: `c` is fully mastered,
the target is not, so `heuristic(c, t) = −masteryBonus = −1/2 < 0` and
`c` passes the filter even though `heuristic('start', c)` is 0. -/
def fC8n : LearningNode :=
  { id := "f", difficulty := 5, prerequisites := [], dependencies := [], layer := .L1 }

/-- C8 no-`start` fixture: the target node. -/
def tC8n : LearningNode :=
  { id := "t", difficulty := 5, prerequisites := [], dependencies := [], layer := .L1 }

/-- C8 no-`start` fixture: the fully mastered intermediate. -/
def cC8n : LearningNode :=
  { id := "c", difficulty := 5, prerequisites := [], dependencies := [], layer := .L1 }

/-- C8 no-`start` fixture: three nodes, mastery 1 on `c` only. -/
def pf8n : PathFinder := PathFinder.create [fC8n, tC8n, cC8n] [("c", 1)]

theorem pf8n_target : jsGet pf8n.nodes "t" = some tC8n := by
  simp [pf8n, fC8n, tC8n, cC8n, PathFinder.create, nodesMap, jsCopy, jsSet, jsGet]

theorem pf8n_nostart : jsGet pf8n.nodes "start" = none := by
  simp [pf8n, fC8n, tC8n, cC8n, PathFinder.create, nodesMap, jsCopy, jsSet, jsGet]

theorem pf8n_heur : PathFinder.heuristic pf8n cC8n.id tC8n.id = -(1/2) := by
  simp only [PathFinder.heuristic, PathFinder.getLayerDistance, pf8n, fC8n, tC8n, cC8n,
    PathFinder.create, defaultHeuristicConfig, nodesMap, jsCopy, jsSet, jsGet, jsAbs,
    masteryOf, List.foldl, List.map]
  try simp
  try norm_num
  try simp
  try norm_num

theorem pf8n_cand : PathFinder.viaIntermediateCandidates pf8n "f" "t" tC8n = [cC8n] := by
  simp only [PathFinder.viaIntermediateCandidates, PathFinder.isSuitableIntermediate,
    PathFinder.heuristic, PathFinder.getLayerDistance, pf8n, fC8n, tC8n, cC8n,
    PathFinder.create, defaultHeuristicConfig, nodesMap, jsCopy, jsSet, jsGet, jsValues,
    jsFilter, jsSortBy, jsInsert, jsAbs, masteryOf, List.foldl, List.map, List.take]
  try norm_num [jsSortBy, jsInsert, List.take]
  try simp
  try norm_num [jsSortBy, jsInsert, List.take]
  try simp

/-- Witness for C8's amended statement, at two fixtures: on `pf8w` (which
has a real `start` node) exactly one candidate `c` is selected and, with
an expired wall clock, both half-budget runs return fallback paths whose
concatenation `[f, c, t]` is the strategy's result; on `pf8n` (no `start`
node, `c` mastered, target not) the filter characterization puts `c`
among the candidates because `heuristic(c, t) = −1/2 < 0`. -/
theorem C8_amended_witness :
    (jsGet pf8w.nodes "t" = some tC8w
      ∧ PathFinder.viaIntermediateCandidates pf8w "f" "t" tC8w = [cC8w]
      ∧ PathFinder.findViaIntermediate pf8w "f" "t" 20 (fun _ _ => false)
          = some { path := [fC8w, cC8w, tC8w], totalCost := 200, totalTime := 240,
                   confidence := 3/10, alternativePaths := [] })
    ∧ (jsGet pf8n.nodes "start" = none
      ∧ (PathFinder.isSuitableIntermediate pf8n cC8n tC8n = true
          ↔ PathFinder.heuristic pf8n cC8n.id tC8n.id < 0)
      ∧ PathFinder.heuristic pf8n cC8n.id tC8n.id = -(1/2)
      ∧ PathFinder.viaIntermediateCandidates pf8n "f" "t" tC8n = [cC8n]) := by
  have h := (C8_amended pf8w "f" "t" tC8w 20 (fun _ _ => false) pf8w_target).2.2.2.1
    cC8w [] r1C8w r2C8w pf8w_cand pf8w_aStar1 pf8w_aStar2
  have hn := (C8_amended pf8n "f" "t" tC8n 20 (fun _ _ => false) pf8n_target).2.2.2.2
    pf8n_nostart cC8n
  refine ⟨⟨pf8w_target, pf8w_cand, ?_⟩, pf8n_nostart, hn, pf8n_heur, pf8n_cand⟩
  rw [h]
  simp [r1C8w, r2C8w]
  norm_num

/-! ## C9: the engine never mutates the caller's maps -/

theorem jsSet_append_of_not_mem {α : Type} (acc : JsMap α) (k : String) (v : α)
    (h : k ∉ acc.map Prod.fst) : jsSet acc k v = acc ++ [(k, v)] := by
  induction acc with
  | nil => rfl
  | cons e rest ih =>
    obtain ⟨k2, v2⟩ := e
    have hk : k2 ≠ k := by
      intro he
      exact h (by simp [he])
    rw [jsSet, if_neg hk, ih (fun hm => h (by simp [hm]))]
    simp

theorem copyFold_eq {α : Type} :
    ∀ (m acc : JsMap α), (m.map Prod.fst).Nodup →
      (∀ k ∈ m.map Prod.fst, k ∉ acc.map Prod.fst) →
      m.foldl (fun acc e => jsSet acc e.1 e.2) acc = acc ++ m := by
  intro m
  induction m with
  | nil => intro acc _ _; simp
  | cons e rest ih =>
    intro acc hnd hdisj
    have hnd2 : (rest.map Prod.fst).Nodup := by
      have h := hnd
      simp only [List.map_cons] at h
      exact h.of_cons
    have hhead : e.1 ∉ rest.map Prod.fst := by
      have h := hnd
      simp only [List.map_cons, List.nodup_cons] at h
      exact h.1
    have hdisj2 : ∀ k ∈ rest.map Prod.fst, k ∉ (acc ++ [(e.1, e.2)]).map Prod.fst := by
      intro k hk
      simp only [List.map_append, List.mem_append]
      rintro (hacc | he)
      · exact hdisj k (by simp [hk]) hacc
      · have hke : k = e.1 := by simpa using he
        exact hhead (hke ▸ hk)
    rw [List.foldl_cons, jsSet_append_of_not_mem acc e.1 e.2 (hdisj e.1 (by simp)),
      ih (acc ++ [(e.1, e.2)]) hnd2 hdisj2]
    simp

theorem jsCopy_eq_self {α : Type} (m : JsMap α) (h : (m.map Prod.fst).Nodup) :
    jsCopy m = m := by
  have := copyFold_eq m [] h (by simp)
  simpa [jsCopy] using this

/-- `analyzeGap` as a call on a freshly constructed engine, returning the
engine object state after the call alongside the result.  The method body
assigns only to locals (the inner search's maps are created inside
`findOptimalPath`), never to `this.nodes` or `this.userProgress`, so the
post-call state is the state the constructor built. -/
def analyzeGapCall (nodes : List LearningNode) (userProgress : JsMap ℚ) (fuel : ℕ)
    (targetNodeId : String) (hint : Option ℚ) : Option GapAnalysisResult × GapAnalyzer :=
  let ga := GapAnalyzer.create nodes userProgress
  (GapAnalyzer.analyzeGap ga fuel targetNodeId hint, ga)

/-- `analyzeMultipleGaps` as a call with its post-call engine state. -/
def analyzeMultipleGapsCall (nodes : List LearningNode) (userProgress : JsMap ℚ) (fuel : ℕ)
    (targetNodeIds : List String) (hint : Option ℚ) :
    Option (List GapAnalysisDetail) × GapAnalyzer :=
  let ga := GapAnalyzer.create nodes userProgress
  (GapAnalyzer.analyzeMultipleGaps ga fuel targetNodeIds hint, ga)

/-- `collectGapMetrics` as a call with its post-call engine state (its
only map writes go to the local `gapCounts`). -/
def collectGapMetricsCall (nodes : List LearningNode) (userProgress : JsMap ℚ) (fuel : ℕ)
    (targetNodeIds : List String) : Option GapMetrics × GapAnalyzer :=
  let ga := GapAnalyzer.create nodes userProgress
  (GapAnalyzer.collectGapMetrics ga fuel targetNodeIds, ga)

/-- `PathFinder.findOptimalPath` as a call with its post-call engine
state (`aStar`'s `openSet`, `closedSet` and `cameFrom` are locals). -/
def findOptimalPathCall (nodes : List LearningNode) (userProgress : JsMap ℚ)
    (config : HeuristicConfig) (fromNodeId toNodeId : String) (options : GapAnalysisOptions)
    (timeOks : ℕ → ℕ → Bool) : PathFinder.FindPathRes × PathFinder :=
  let pf := PathFinder.create nodes userProgress config
  (PathFinder.findOptimalPath pf fromNodeId toNodeId options timeOks, pf)

/-- **C9**: no engine operation mutates the caller-supplied mastery map
or node list.  Both constructors rebuild their own maps from the caller's
data (`new Map(...)`), so the engine holds no alias of the caller's map,
and after any of the four operations the engine's stored mastery map is
still value-equal to the caller's original (`jsCopy` is the identity on
maps with JS-Map-valid, i.e. duplicate-free, keys) and its node index is
still exactly the constructor-built `nodesMap nodes`. -/
theorem C9_no_mutation (nodes : List LearningNode) (userProgress : JsMap ℚ)
    (hnodup : (userProgress.map Prod.fst).Nodup) (fuel : ℕ) (targetNodeId : String)
    (hint : Option ℚ) (targetNodeIds : List String) (config : HeuristicConfig)
    (fromNodeId toNodeId : String) (options : GapAnalysisOptions) (timeOks : ℕ → ℕ → Bool) :
    ((analyzeGapCall nodes userProgress fuel targetNodeId hint).2.userProgress = userProgress
      ∧ (analyzeGapCall nodes userProgress fuel targetNodeId hint).2.nodes = nodesMap nodes)
    ∧ ((analyzeMultipleGapsCall nodes userProgress fuel targetNodeIds hint).2.userProgress
          = userProgress
      ∧ (analyzeMultipleGapsCall nodes userProgress fuel targetNodeIds hint).2.nodes
          = nodesMap nodes)
    ∧ ((collectGapMetricsCall nodes userProgress fuel targetNodeIds).2.userProgress
          = userProgress
      ∧ (collectGapMetricsCall nodes userProgress fuel targetNodeIds).2.nodes
          = nodesMap nodes)
    ∧ ((findOptimalPathCall nodes userProgress config fromNodeId toNodeId options
            timeOks).2.userProgress = userProgress
      ∧ (findOptimalPathCall nodes userProgress config fromNodeId toNodeId options
            timeOks).2.nodes = nodesMap nodes) := by
  have hcopy : jsCopy userProgress = userProgress := jsCopy_eq_self userProgress hnodup
  refine ⟨⟨?_, rfl⟩, ⟨?_, rfl⟩, ⟨?_, rfl⟩, ⟨?_, rfl⟩⟩ <;>
    simp [analyzeGapCall, analyzeMultipleGapsCall, collectGapMetricsCall,
      findOptimalPathCall, GapAnalyzer.create, PathFinder.create, hcopy]

/-- C9 witness fixture node. -/
def nC9 : LearningNode :=
  { id := "n9", difficulty := 3, prerequisites := [], dependencies := [], layer := .L1 }

/-- C9 witness fixture mastery map. -/
def upC9 : JsMap ℚ := [("n9", 1/2)]

/-- Witness for C9 on a concrete one-node engine. -/
theorem C9_witness :
    ((upC9.map Prod.fst).Nodup)
    ∧ (analyzeGapCall [nC9] upC9 10 "n9" none).2.userProgress = upC9
    ∧ (collectGapMetricsCall [nC9] upC9 10 ["n9"]).2.userProgress = upC9
    ∧ (findOptimalPathCall [nC9] upC9 defaultHeuristicConfig "n9" "n9" {}
        (fun _ _ => true)).2.userProgress = upC9 := by
  have hnd : (upC9.map Prod.fst).Nodup := by simp [upC9]
  have h := C9_no_mutation [nC9] upC9 hnd 10 "n9" none ["n9"] defaultHeuristicConfig
    "n9" "n9" {} (fun _ _ => true)
  exact ⟨hnd, h.1.1, h.2.2.1.1, h.2.2.2.1⟩
